import Mathlib

/-!
# cupoch visualization: geometry renderers and the visualizer

A shallow embedding of `geometry_renderer.cpp` and `visualizer.cpp`.

* A `std::shared_ptr<const geometry::Geometry>` is a `Geometry` value carrying its
  address `ptr`; pointer comparison is comparison of `ptr`.  A possibly null pointer is an
  `Option Geometry`.
* The four renderer classes share the record `GeometryRenderer`; the dynamic class is the
  field `cls`, and a virtual call is a `match` on it.
* A shader unit's `Render` is an external GPU action.  Its boolean result is supplied by a
  function `shader : ShaderUnit → Bool`, and every invocation is recorded in the order in
  which it happens.
* `ViewControl` is an external collaborator and carries no modelled state; the calls into
  it are marked by comments at the places where the source makes them.
-/

namespace cupoch

/-! ## Geometry and display options -/

/-- Modelled from the spec: `geometry.h` (the declaration of `Geometry::GeometryType`) is
not among the sources.  The kinds are those of the spec's data model; the source names
`Unspecified`, `PointCloud`, `TriangleMesh` and `Image`, and treats any further kind in
the final `else` branch of `Visualizer::AddGeometry`. -/
inductive GeometryType where
  | Unspecified
  | PointCloud
  | TriangleMesh
  | Image
  | CoordinateFrameMesh
  deriving DecidableEq, Repr

/-- A geometry object seen through a shared pointer: its address and the answers of the
capability queries the renderers call (`GetGeometryType()`, `IsEmpty()`, `HasNormals()`,
`HasTriangleNormals()`, `HasVertexNormals()`, `HasTriangleUvs()`, `HasTexture()`). -/
structure Geometry where
  ptr : Nat
  GetGeometryType : GeometryType
  IsEmpty : Bool
  HasNormals : Bool
  HasTriangleNormals : Bool
  HasVertexNormals : Bool
  HasTriangleUvs : Bool
  HasTexture : Bool
  deriving DecidableEq, Repr

/-- Modelled from the spec: `render_option.h` is not among the sources; the point-color
modes are those of the display configuration contract. -/
inductive PointColorOption where
  | Default
  | Color
  | XCoordinate
  | YCoordinate
  | ZCoordinate
  | Normal
  deriving DecidableEq, Repr

/-- Modelled from the spec: `render_option.h` is not among the sources; the mesh-color
modes are those of the display configuration contract. -/
inductive MeshColorOption where
  | Default
  | Color
  | XCoordinate
  | YCoordinate
  | ZCoordinate
  | Normal
  deriving DecidableEq, Repr

/-- The members of `RenderOption` that the renderers read. -/
structure RenderOption where
  point_color_option_ : PointColorOption
  point_show_normal_ : Bool
  mesh_color_option_ : MeshColorOption
  mesh_show_wireframe_ : Bool
  show_coordinate_frame_ : Bool
  deriving DecidableEq, Repr

/-! ## Shader units and renderers -/

/-- The shader members of the four renderer classes, by their member names. -/
inductive ShaderUnit where
  | simple_point_shader_
  | phong_point_shader_
  | normal_point_shader_
  | simplewhite_normal_shader_
  | simple_mesh_shader_
  | texture_simple_mesh_shader_
  | phong_mesh_shader_
  | texture_phong_mesh_shader_
  | normal_mesh_shader_
  | simplewhite_wireframe_shader_
  | image_shader_
  | phong_shader_
  deriving DecidableEq, Repr

/-- The local `success` of a renderer's `Render` together with the shader units invoked so
far, oldest first. -/
structure RenderRun where
  success : Bool
  invoked : List ShaderUnit
  deriving DecidableEq, Repr

/-- The statement `success &= unit.Render(...)`: the unit is invoked whatever `success`
holds (`&=` on `bool` evaluates its right operand), and its result is and-ed in. -/
def RenderRun.and_render (run : RenderRun) (shader : ShaderUnit → Bool) (unit : ShaderUnit) :
    RenderRun :=
  { success := run.success && shader unit, invoked := run.invoked ++ [unit] }

/-- The statement `return unit.Render(...)` of a renderer with a single unit. -/
def RenderRun.return_render (shader : ShaderUnit → Bool) (unit : ShaderUnit) : RenderRun :=
  { success := shader unit, invoked := [unit] }

/-- The concrete renderer classes of `geometry_renderer.cpp`. -/
inductive RendererClass where
  | PointCloudRenderer
  | TriangleMeshRenderer
  | ImageRenderer
  | CoordinateFrameRenderer
  deriving DecidableEq, Repr

/-- A renderer object: its own address, its dynamic class, the stored geometry pointer
(`none` is the null pointer), the visibility flag, and the log of `InvalidateGeometry()`
calls made on its shader units (the units' own state is in `shader_wrapper.cpp`, which is
not among the sources). -/
structure GeometryRenderer where
  ptr : Nat
  cls : RendererClass
  geometry_ptr_ : Option Geometry
  is_visible_ : Bool
  invalidated : List ShaderUnit
  deriving DecidableEq, Repr

/-- The call `unit.InvalidateGeometry()` on one of the renderer's units. -/
def GeometryRenderer.InvalidateGeometry (r : GeometryRenderer) (unit : ShaderUnit) :
    GeometryRenderer :=
  { r with invalidated := r.invalidated ++ [unit] }

/-- `PointCloudRenderer::Render`.  `none` stands for dereferencing a null `geometry_ptr_`. -/
def PointCloudRenderer.Render (r : GeometryRenderer) (option : RenderOption)
    (shader : ShaderUnit → Bool) : Option RenderRun :=
  if r.is_visible_ == false then some { success := true, invoked := [] }
  else
    match r.geometry_ptr_ with
    | none => none
    | some pointcloud =>
      if pointcloud.IsEmpty then some { success := true, invoked := [] }
      else
        let run : RenderRun := { success := true, invoked := [] }
        if pointcloud.HasNormals then
          let run :=
            if option.point_color_option_ == PointColorOption.Normal then
              run.and_render shader ShaderUnit.normal_point_shader_
            else
              run.and_render shader ShaderUnit.phong_point_shader_
          let run :=
            if option.point_show_normal_ then
              run.and_render shader ShaderUnit.simplewhite_normal_shader_
            else run
          some run
        else
          some (run.and_render shader ShaderUnit.simple_point_shader_)

/-- `PointCloudRenderer::UpdateGeometry`. -/
def PointCloudRenderer.UpdateGeometry (r : GeometryRenderer) : Bool × GeometryRenderer :=
  let r := r.InvalidateGeometry ShaderUnit.simple_point_shader_
  let r := r.InvalidateGeometry ShaderUnit.phong_point_shader_
  let r := r.InvalidateGeometry ShaderUnit.normal_point_shader_
  let r := r.InvalidateGeometry ShaderUnit.simplewhite_normal_shader_
  (true, r)

/-- `PointCloudRenderer::AddGeometry`. -/
def PointCloudRenderer.AddGeometry (r : GeometryRenderer) (geometry_ptr : Geometry) :
    Bool × GeometryRenderer :=
  if geometry_ptr.GetGeometryType != GeometryType.PointCloud then (false, r)
  else PointCloudRenderer.UpdateGeometry { r with geometry_ptr_ := some geometry_ptr }

/-- `TriangleMeshRenderer::Render`.  `none` stands for dereferencing a null
`geometry_ptr_`. -/
def TriangleMeshRenderer.Render (r : GeometryRenderer) (option : RenderOption)
    (shader : ShaderUnit → Bool) : Option RenderRun :=
  if r.is_visible_ == false then some { success := true, invoked := [] }
  else
    match r.geometry_ptr_ with
    | none => none
    | some mesh =>
      if mesh.IsEmpty then some { success := true, invoked := [] }
      else
        let run : RenderRun := { success := true, invoked := [] }
        let run :=
          if mesh.HasTriangleNormals && mesh.HasVertexNormals then
            if option.mesh_color_option_ == MeshColorOption.Normal then
              run.and_render shader ShaderUnit.normal_mesh_shader_
            else if option.mesh_color_option_ == MeshColorOption.Color &&
                mesh.HasTriangleUvs && mesh.HasTexture then
              run.and_render shader ShaderUnit.texture_phong_mesh_shader_
            else
              run.and_render shader ShaderUnit.phong_mesh_shader_
          else
            if option.mesh_color_option_ == MeshColorOption.Color &&
                mesh.HasTriangleUvs && mesh.HasTexture then
              run.and_render shader ShaderUnit.texture_simple_mesh_shader_
            else
              run.and_render shader ShaderUnit.simple_mesh_shader_
        let run :=
          if option.mesh_show_wireframe_ then
            run.and_render shader ShaderUnit.simplewhite_wireframe_shader_
          else run
        some run

/-- `TriangleMeshRenderer::UpdateGeometry`. -/
def TriangleMeshRenderer.UpdateGeometry (r : GeometryRenderer) : Bool × GeometryRenderer :=
  let r := r.InvalidateGeometry ShaderUnit.simple_mesh_shader_
  let r := r.InvalidateGeometry ShaderUnit.texture_simple_mesh_shader_
  let r := r.InvalidateGeometry ShaderUnit.phong_mesh_shader_
  let r := r.InvalidateGeometry ShaderUnit.texture_phong_mesh_shader_
  let r := r.InvalidateGeometry ShaderUnit.normal_mesh_shader_
  let r := r.InvalidateGeometry ShaderUnit.simplewhite_wireframe_shader_
  (true, r)

/-- `TriangleMeshRenderer::AddGeometry`. -/
def TriangleMeshRenderer.AddGeometry (r : GeometryRenderer) (geometry_ptr : Geometry) :
    Bool × GeometryRenderer :=
  if geometry_ptr.GetGeometryType != GeometryType.TriangleMesh then (false, r)
  else TriangleMeshRenderer.UpdateGeometry { r with geometry_ptr_ := some geometry_ptr }

/-- `ImageRenderer::Render`.  `none` stands for dereferencing a null `geometry_ptr_`. -/
def ImageRenderer.Render (r : GeometryRenderer) (_option : RenderOption)
    (shader : ShaderUnit → Bool) : Option RenderRun :=
  if r.is_visible_ == false then some { success := true, invoked := [] }
  else
    match r.geometry_ptr_ with
    | none => none
    | some image =>
      if image.IsEmpty then some { success := true, invoked := [] }
      else some (RenderRun.return_render shader ShaderUnit.image_shader_)

/-- `ImageRenderer::UpdateGeometry`. -/
def ImageRenderer.UpdateGeometry (r : GeometryRenderer) : Bool × GeometryRenderer :=
  let r := r.InvalidateGeometry ShaderUnit.image_shader_
  (true, r)

/-- `ImageRenderer::AddGeometry`. -/
def ImageRenderer.AddGeometry (r : GeometryRenderer) (geometry_ptr : Geometry) :
    Bool × GeometryRenderer :=
  if geometry_ptr.GetGeometryType != GeometryType.Image then (false, r)
  else ImageRenderer.UpdateGeometry { r with geometry_ptr_ := some geometry_ptr }

/-- `CoordinateFrameRenderer::Render`.  `none` stands for dereferencing a null
`geometry_ptr_`. -/
def CoordinateFrameRenderer.Render (r : GeometryRenderer) (option : RenderOption)
    (shader : ShaderUnit → Bool) : Option RenderRun :=
  if r.is_visible_ == false then some { success := true, invoked := [] }
  else
    match r.geometry_ptr_ with
    | none => none
    | some mesh =>
      if mesh.IsEmpty then some { success := true, invoked := [] }
      else if option.show_coordinate_frame_ == false then
        some { success := true, invoked := [] }
      else some (RenderRun.return_render shader ShaderUnit.phong_shader_)

/-- `CoordinateFrameRenderer::UpdateGeometry`. -/
def CoordinateFrameRenderer.UpdateGeometry (r : GeometryRenderer) :
    Bool × GeometryRenderer :=
  let r := r.InvalidateGeometry ShaderUnit.phong_shader_
  (true, r)

/-- `CoordinateFrameRenderer::AddGeometry`. -/
def CoordinateFrameRenderer.AddGeometry (r : GeometryRenderer) (geometry_ptr : Geometry) :
    Bool × GeometryRenderer :=
  if geometry_ptr.GetGeometryType != GeometryType.TriangleMesh then (false, r)
  else CoordinateFrameRenderer.UpdateGeometry { r with geometry_ptr_ := some geometry_ptr }

/-- The virtual call `renderer_ptr->Render(option, view)`. -/
def GeometryRenderer.Render (r : GeometryRenderer) (option : RenderOption)
    (shader : ShaderUnit → Bool) : Option RenderRun :=
  match r.cls with
  | RendererClass.PointCloudRenderer => PointCloudRenderer.Render r option shader
  | RendererClass.TriangleMeshRenderer => TriangleMeshRenderer.Render r option shader
  | RendererClass.ImageRenderer => ImageRenderer.Render r option shader
  | RendererClass.CoordinateFrameRenderer => CoordinateFrameRenderer.Render r option shader

/-- The virtual call `renderer_ptr->AddGeometry(geometry_ptr)`. -/
def GeometryRenderer.AddGeometry (r : GeometryRenderer) (geometry_ptr : Geometry) :
    Bool × GeometryRenderer :=
  match r.cls with
  | RendererClass.PointCloudRenderer => PointCloudRenderer.AddGeometry r geometry_ptr
  | RendererClass.TriangleMeshRenderer => TriangleMeshRenderer.AddGeometry r geometry_ptr
  | RendererClass.ImageRenderer => ImageRenderer.AddGeometry r geometry_ptr
  | RendererClass.CoordinateFrameRenderer => CoordinateFrameRenderer.AddGeometry r geometry_ptr

/-- The virtual call `renderer_ptr->UpdateGeometry()`. -/
def GeometryRenderer.UpdateGeometry (r : GeometryRenderer) : Bool × GeometryRenderer :=
  match r.cls with
  | RendererClass.PointCloudRenderer => PointCloudRenderer.UpdateGeometry r
  | RendererClass.TriangleMeshRenderer => TriangleMeshRenderer.UpdateGeometry r
  | RendererClass.ImageRenderer => ImageRenderer.UpdateGeometry r
  | RendererClass.CoordinateFrameRenderer => CoordinateFrameRenderer.UpdateGeometry r

/-- The geometry kind each renderer class compares against in its `AddGeometry`. -/
def RendererClass.expected_kind : RendererClass → GeometryType
  | RendererClass.PointCloudRenderer => GeometryType.PointCloud
  | RendererClass.TriangleMeshRenderer => GeometryType.TriangleMesh
  | RendererClass.ImageRenderer => GeometryType.Image
  | RendererClass.CoordinateFrameRenderer => GeometryType.TriangleMesh

/-! ## The visualizer -/

/-- `std::unordered_set::insert` for a set of shared pointers, kept as the list of its
elements in iteration order and keyed by address: nothing is inserted when an element
with the same address is present.  (The place of a new element in the iteration order is
not fixed by the container; no statement below depends on it.) -/
def set_insert {α : Type} (address : α → Nat) (x : α) (s : List α) : List α :=
  if s.any (fun y => address y == address x) then s else s ++ [x]

/-- `std::unordered_set::erase(key)`: the element with that address, if any, is removed. -/
def set_erase {α : Type} (address : α → Nat) (key : Nat) : List α → List α
  | [] => []
  | y :: rest => if address y == key then rest else y :: set_erase address key rest

/-- An address not used by any renderer of the list: what the allocation inside
`std::make_shared` yields with respect to the live renderers. -/
def fresh_address : List GeometryRenderer → Nat
  | [] => 0
  | r :: rest => max (r.ptr + 1) (fresh_address rest)

/-- `GeometryRenderer::GetGeometry() == geometry_ptr`, a comparison of shared pointers. -/
def GeometryRenderer.geometry_is (r : GeometryRenderer) (geometry_ptr : Geometry) : Bool :=
  match r.geometry_ptr_ with
  | none => false
  | some g => g.ptr == geometry_ptr.ptr

/-- Modelled from the spec: `geometry_renderer.h` is not among the sources;
`HasGeometry(geometry_ptr)` tells whether the renderer references that geometry. -/
def GeometryRenderer.HasGeometry (r : GeometryRenderer) (geometry_ptr : Geometry) : Bool :=
  r.geometry_is geometry_ptr

/-- The members of `Visualizer` used by `visualizer.cpp`.
`window_should_close` is the close flag of the GLFW window `window_`.  A registered
`std::function` is kept as a handle (`none` is the empty function); what a handle does
when called is given to `Run` separately.  `redraw_passes` counts the redraw passes
performed so far.  The members `coordinate_frame_mesh_ptr_` and
`coordinate_frame_mesh_renderer_ptr_` alias the last entries of the utility vectors and
are not kept separately. -/
structure Visualizer where
  is_initialized_ : Bool
  is_redraw_required_ : Bool
  window_should_close : Bool
  geometry_renderer_ptrs_ : List GeometryRenderer
  geometry_ptrs_ : List Geometry
  utility_ptrs_ : List Geometry
  utility_renderer_ptrs_ : List GeometryRenderer
  animation_callback_func_ : Option Nat
  animation_callback_func_in_loop_ : Option Nat
  redraw_passes : Nat
  deriving DecidableEq, Repr

/-- The expression `std::make_shared<glsl::...Renderer>()`: a new renderer object of the
given class at an address no live renderer has, without geometry.  The visibility flag of
a new renderer is taken to be set; its default is declared in `geometry_renderer.h`, which
is not among the sources, and no statement below depends on it. -/
def Visualizer.make_shared (v : Visualizer) (cls : RendererClass) : GeometryRenderer :=
  { ptr := fresh_address (v.geometry_renderer_ptrs_ ++ v.utility_renderer_ptrs_)
    cls := cls
    geometry_ptr_ := none
    is_visible_ := true
    invalidated := [] }

/-- `Visualizer::UpdateRender`. -/
def Visualizer.UpdateRender (v : Visualizer) : Visualizer :=
  { v with is_redraw_required_ := true }

/-- The `for` loop of `Visualizer::UpdateGeometry` over the tracked renderers, started with
the current value of `success`.  In `success = (success && renderer_ptr->UpdateGeometry())`
the call is made only when `success` is true, as `&&` does not evaluate its right operand
otherwise. -/
def Visualizer.UpdateGeometry_loop (geometry_ptr : Option Geometry) :
    Bool → List GeometryRenderer → Bool × List GeometryRenderer
  | success, [] => (success, [])
  | success, renderer_ptr :: rest =>
    let selected : Bool :=
      match geometry_ptr with
      | none => true
      | some g => renderer_ptr.HasGeometry g
    if selected then
      if success then
        let updated := renderer_ptr.UpdateGeometry
        let tail := Visualizer.UpdateGeometry_loop geometry_ptr updated.1 rest
        (tail.1, updated.2 :: tail.2)
      else
        let tail := Visualizer.UpdateGeometry_loop geometry_ptr false rest
        (tail.1, renderer_ptr :: tail.2)
    else
      let tail := Visualizer.UpdateGeometry_loop geometry_ptr success rest
      (tail.1, renderer_ptr :: tail.2)

/-- `Visualizer::UpdateGeometry(geometry_ptr)`; the default argument `nullptr` is `none`. -/
def Visualizer.UpdateGeometry (v : Visualizer) (geometry_ptr : Option Geometry) :
    Bool × Visualizer :=
  -- glfwMakeContextCurrent(window_)
  let looped := Visualizer.UpdateGeometry_loop geometry_ptr true v.geometry_renderer_ptrs_
  let v := { v with geometry_renderer_ptrs_ := looped.2 }
  let v := v.UpdateRender
  (looped.1, v)

/-- `Visualizer::AddGeometry`. -/
def Visualizer.AddGeometry (v : Visualizer) (geometry_ptr : Geometry)
    (_reset_bounding_box : Bool) : Bool × Visualizer :=
  if v.is_initialized_ == false then (false, v)
  else
    -- glfwMakeContextCurrent(window_)
    -- `none` below: one of the `return false` statements of the `if` chain was reached
    let renderer_ptr : Option GeometryRenderer :=
      if geometry_ptr.GetGeometryType == GeometryType.Unspecified then none
      else if geometry_ptr.GetGeometryType == GeometryType.PointCloud then
        let added := (v.make_shared RendererClass.PointCloudRenderer).AddGeometry geometry_ptr
        if added.1 == false then none else some added.2
      else if geometry_ptr.GetGeometryType == GeometryType.TriangleMesh then
        let added := (v.make_shared RendererClass.TriangleMeshRenderer).AddGeometry geometry_ptr
        if added.1 == false then none else some added.2
      else if geometry_ptr.GetGeometryType == GeometryType.Image then
        let added := (v.make_shared RendererClass.ImageRenderer).AddGeometry geometry_ptr
        if added.1 == false then none else some added.2
      else none
    match renderer_ptr with
    | none => (false, v)
    | some renderer_ptr =>
      let v :=
        { v with
          geometry_renderer_ptrs_ :=
            set_insert GeometryRenderer.ptr renderer_ptr v.geometry_renderer_ptrs_
          geometry_ptrs_ := set_insert Geometry.ptr geometry_ptr v.geometry_ptrs_ }
      -- if (reset_bounding_box): view_control_ptr_->FitInGeometry, ResetViewPoint()
      v.UpdateGeometry none

/-- The `for` loop of `Visualizer::RemoveGeometry`: every tracked renderer whose geometry is
`geometry_ptr` overwrites `geometry_renderer_delete`, so the last one met remains. -/
def Visualizer.RemoveGeometry_find (geometry_ptr : Geometry) :
    Option GeometryRenderer → List GeometryRenderer → Option GeometryRenderer
  | geometry_renderer_delete, [] => geometry_renderer_delete
  | geometry_renderer_delete, geometry_renderer_ptr :: rest =>
    if geometry_renderer_ptr.geometry_is geometry_ptr then
      Visualizer.RemoveGeometry_find geometry_ptr (some geometry_renderer_ptr) rest
    else
      Visualizer.RemoveGeometry_find geometry_ptr geometry_renderer_delete rest

/-- `Visualizer::RemoveGeometry`. -/
def Visualizer.RemoveGeometry (v : Visualizer) (geometry_ptr : Geometry)
    (_reset_bounding_box : Bool) : Bool × Visualizer :=
  if v.is_initialized_ == false then (false, v)
  else
    -- glfwMakeContextCurrent(window_)
    match Visualizer.RemoveGeometry_find geometry_ptr none v.geometry_renderer_ptrs_ with
    | none => (false, v)
    | some geometry_renderer_delete =>
      let v :=
        { v with
          geometry_renderer_ptrs_ :=
            set_erase GeometryRenderer.ptr geometry_renderer_delete.ptr
              v.geometry_renderer_ptrs_
          geometry_ptrs_ := set_erase Geometry.ptr geometry_ptr.ptr v.geometry_ptrs_ }
      -- if (reset_bounding_box): ResetViewPoint(true)
      v.UpdateGeometry none

/-- `Visualizer::ClearGeometries`. -/
def Visualizer.ClearGeometries (v : Visualizer) : Bool × Visualizer :=
  if v.is_initialized_ == false then (false, v)
  else
    -- glfwMakeContextCurrent(window_)
    let v := { v with geometry_renderer_ptrs_ := [], geometry_ptrs_ := [] }
    v.UpdateGeometry none

/-- `Visualizer::HasGeometry`. -/
def Visualizer.HasGeometry (v : Visualizer) : Bool :=
  !v.geometry_ptrs_.isEmpty

/-- `Visualizer::RegisterAnimationCallback`. -/
def Visualizer.RegisterAnimationCallback (v : Visualizer) (callback_func : Option Nat) :
    Visualizer :=
  { v with animation_callback_func_ := callback_func }

/-- `Visualizer::Close`: `glfwSetWindowShouldClose(window_, GL_TRUE)`. -/
def Visualizer.Close (v : Visualizer) : Visualizer :=
  { v with window_should_close := true }

/-- Modelled from the spec: `WindowRefreshCallback` is defined in a file that is not among
the sources.  If the frame is dirty it performs a redraw pass over the renderers and clears
the dirty flag. -/
def Visualizer.WindowRefreshCallback (v : Visualizer) : Visualizer :=
  if v.is_redraw_required_ then
    { v with redraw_passes := v.redraw_passes + 1, is_redraw_required_ := false }
  else v

/-- Modelled from the spec: the window system's event processing (`glfwPollEvents`,
`glfwWaitEvents`) is external; on a user action it sets the window's close flag.
`close_requested` tells whether such an action is among the processed events. -/
def Visualizer.glfwProcessEvents (v : Visualizer) (close_requested : Bool) : Visualizer :=
  { v with window_should_close := v.window_should_close || close_requested }

/-- `Visualizer::WaitEvents`. -/
def Visualizer.WaitEvents (v : Visualizer) (close_requested : Bool) : Bool × Visualizer :=
  if v.is_initialized_ == false then (false, v)
  else
    -- glfwMakeContextCurrent(window_)
    let v := if v.is_redraw_required_ then v.WindowRefreshCallback else v
    let v := { v with animation_callback_func_in_loop_ := v.animation_callback_func_ }
    let v := v.glfwProcessEvents close_requested
    (!v.window_should_close, v)

/-- `Visualizer::PollEvents`. -/
def Visualizer.PollEvents (v : Visualizer) (close_requested : Bool) : Bool × Visualizer :=
  if v.is_initialized_ == false then (false, v)
  else
    -- glfwMakeContextCurrent(window_)
    let v := if v.is_redraw_required_ then v.WindowRefreshCallback else v
    let v := { v with animation_callback_func_in_loop_ := v.animation_callback_func_ }
    let v := v.glfwProcessEvents close_requested
    (!v.window_should_close, v)

/-- `Visualizer::BuildUtilities`.  The mesh returned by
`geometry::TriangleMesh::CreateCoordinateFrame` is the argument `coordinate_frame_mesh`. -/
def Visualizer.BuildUtilities (v : Visualizer) (coordinate_frame_mesh : Geometry) :
    Visualizer :=
  -- glfwMakeContextCurrent(window_)
  let added :=
    (v.make_shared RendererClass.CoordinateFrameRenderer).AddGeometry coordinate_frame_mesh
  if added.1 == false then v
  else
    { v with
      utility_ptrs_ := v.utility_ptrs_ ++ [coordinate_frame_mesh]
      utility_renderer_ptrs_ := v.utility_renderer_ptrs_ ++ [added.2] }

/-- The loop condition of `Visualizer::Run`:
`bool(animation_callback_func_) ? PollEvents() : WaitEvents()`. -/
def Visualizer.Run_condition (v : Visualizer) (close_requested : Bool) : Bool × Visualizer :=
  if v.animation_callback_func_.isSome then v.PollEvents close_requested
  else v.WaitEvents close_requested

/-- The loop body of `Visualizer::Run`.  `callbacks f` is what the registered function
with handle `f` does to the visualizer and returns. -/
def Visualizer.Run_body (callbacks : Nat → Visualizer → Bool × Visualizer)
    (v : Visualizer) : Visualizer :=
  match v.animation_callback_func_in_loop_ with
  | some f =>
    let called := callbacks f v
    let v := if called.1 then (called.2.UpdateGeometry none).2 else called.2
    v.UpdateRender
  | none => v

/-- The `while` loop of `Visualizer::Run`.  `events` lists, for the successive evaluations
of the loop condition, whether the processed window events contain a close request (none
once the list is used up).  `none` is returned when `fuel` evaluations of the condition
did not end the loop. -/
def Visualizer.Run_loop (callbacks : Nat → Visualizer → Bool × Visualizer) :
    Nat → List Bool → Visualizer → Option Visualizer
  | 0, _, _ => none
  | fuel + 1, events, v =>
    let cond := v.Run_condition (events.headD false)
    if cond.1 then
      Visualizer.Run_loop callbacks fuel events.tail (Visualizer.Run_body callbacks cond.2)
    else some cond.2

/-- `Visualizer::Run`. -/
def Visualizer.Run (callbacks : Nat → Visualizer → Bool × Visualizer) (fuel : Nat)
    (events : List Bool) (coordinate_frame_mesh : Geometry) (v : Visualizer) :
    Option Visualizer :=
  let v := v.BuildUtilities coordinate_frame_mesh
  -- UpdateWindowTitle()
  Visualizer.Run_loop callbacks fuel events v

/-! ## The selection rules in the words of the specification -/

/-- The units a point-cloud renderer is to invoke, in the specification's words: with
normals, the normal-color unit when the point-color option is `Normal` and the lit (phong)
unit otherwise, followed by the normal-overlay unit when `show_normal` is set; without
normals, the plain unlit unit alone. -/
def spec_pointcloud_units (pointcloud : Geometry) (option : RenderOption) : List ShaderUnit :=
  if pointcloud.HasNormals = true then
    [if option.point_color_option_ = PointColorOption.Normal then
        ShaderUnit.normal_point_shader_
      else ShaderUnit.phong_point_shader_] ++
    (if option.point_show_normal_ = true then [ShaderUnit.simplewhite_normal_shader_] else [])
  else [ShaderUnit.simple_point_shader_]

/-- The texture test of the specification: color mode `Color`, UVs present, texture
present. -/
def spec_mesh_textured (mesh : Geometry) (option : RenderOption) : Bool :=
  decide (option.mesh_color_option_ = MeshColorOption.Color ∧ mesh.HasTriangleUvs = true ∧
    mesh.HasTexture = true)

/-- The base unit of a mesh renderer, in the specification's words. -/
def spec_mesh_base_unit (mesh : Geometry) (option : RenderOption) : ShaderUnit :=
  if mesh.HasTriangleNormals = true ∧ mesh.HasVertexNormals = true then
    if option.mesh_color_option_ = MeshColorOption.Normal then ShaderUnit.normal_mesh_shader_
    else if spec_mesh_textured mesh option = true then
      ShaderUnit.texture_phong_mesh_shader_
    else ShaderUnit.phong_mesh_shader_
  else
    if spec_mesh_textured mesh option = true then ShaderUnit.texture_simple_mesh_shader_
    else ShaderUnit.simple_mesh_shader_

/-- The units a mesh renderer is to invoke, in the specification's words: the base unit,
and the wireframe overlay unit when `show_wireframe` is set. -/
def spec_mesh_units (mesh : Geometry) (option : RenderOption) : List ShaderUnit :=
  [spec_mesh_base_unit mesh option] ++
    (if option.mesh_show_wireframe_ = true then [ShaderUnit.simplewhite_wireframe_shader_]
      else [])

/-- The units selected for a renderer of the given class, in the specification's words:
the point-cloud rule, the mesh rule, the single image unit, and for the coordinate frame
its unit when `show_coordinate_frame` is set. -/
def spec_selected_units (cls : RendererClass) (geometry : Geometry) (option : RenderOption) :
    List ShaderUnit :=
  match cls with
  | RendererClass.PointCloudRenderer => spec_pointcloud_units geometry option
  | RendererClass.TriangleMeshRenderer => spec_mesh_units geometry option
  | RendererClass.ImageRenderer => [ShaderUnit.image_shader_]
  | RendererClass.CoordinateFrameRenderer =>
    if option.show_coordinate_frame_ = true then [ShaderUnit.phong_shader_] else []

/-! ## Sample values -/

/-- A non-empty point cloud with normals, at address 1. -/
def sample_pointcloud : Geometry :=
  { ptr := 1, GetGeometryType := GeometryType.PointCloud, IsEmpty := false,
    HasNormals := true, HasTriangleNormals := false, HasVertexNormals := false,
    HasTriangleUvs := false, HasTexture := false }

/-- A non-empty textured mesh with triangle and vertex normals, at address 2. -/
def sample_mesh : Geometry :=
  { ptr := 2, GetGeometryType := GeometryType.TriangleMesh, IsEmpty := false,
    HasNormals := false, HasTriangleNormals := true, HasVertexNormals := true,
    HasTriangleUvs := true, HasTexture := true }

/-- An empty image, at address 3. -/
def sample_image : Geometry :=
  { ptr := 3, GetGeometryType := GeometryType.Image, IsEmpty := true,
    HasNormals := false, HasTriangleNormals := false, HasVertexNormals := false,
    HasTriangleUvs := false, HasTexture := false }

/-- Display options: normals as point color, show normals, mesh color mode `Color`,
wireframe on, coordinate frame off. -/
def sample_option : RenderOption :=
  { point_color_option_ := PointColorOption.Normal, point_show_normal_ := true,
    mesh_color_option_ := MeshColorOption.Color, mesh_show_wireframe_ := true,
    show_coordinate_frame_ := false }

/-- A visible point-cloud renderer at address 10 holding `sample_pointcloud`. -/
def sample_pointcloud_renderer : GeometryRenderer :=
  { ptr := 10, cls := RendererClass.PointCloudRenderer, geometry_ptr_ := some sample_pointcloud,
    is_visible_ := true, invalidated := [] }

/-- A visible mesh renderer at address 11 holding `sample_mesh`. -/
def sample_mesh_renderer : GeometryRenderer :=
  { ptr := 11, cls := RendererClass.TriangleMeshRenderer, geometry_ptr_ := some sample_mesh,
    is_visible_ := true, invalidated := [] }

/-- A visible image renderer at address 12 holding the empty `sample_image`. -/
def sample_image_renderer : GeometryRenderer :=
  { ptr := 12, cls := RendererClass.ImageRenderer, geometry_ptr_ := some sample_image,
    is_visible_ := true, invalidated := [] }

/-- A visible coordinate-frame renderer at address 13 holding `sample_mesh`. -/
def sample_frame_renderer : GeometryRenderer :=
  { ptr := 13, cls := RendererClass.CoordinateFrameRenderer, geometry_ptr_ := some sample_mesh,
    is_visible_ := true, invalidated := [] }

/-- Shader results in which the base units fail and the overlay units succeed. -/
def sample_shader : ShaderUnit → Bool
  | ShaderUnit.simplewhite_normal_shader_ => true
  | ShaderUnit.simplewhite_wireframe_shader_ => true
  | _ => false

/-- The two `insert` statements of `Visualizer::AddGeometry`. -/
def Visualizer.insert_tracked (v : Visualizer) (renderer_ptr : GeometryRenderer)
    (geometry_ptr : Geometry) : Visualizer :=
  { v with
    geometry_renderer_ptrs_ :=
      set_insert GeometryRenderer.ptr renderer_ptr v.geometry_renderer_ptrs_
    geometry_ptrs_ := set_insert Geometry.ptr geometry_ptr v.geometry_ptrs_ }

/-- What `Visualizer::AddGeometry` is to do for a geometry whose kind has the renderer
class `cls`: the renderer of that class made for the call accepts the geometry and sits at
an address no tracked renderer has; the call returns what a full `UpdateGeometry()` pass
returns on the visualizer with the renderer and the geometry inserted; afterwards a
renderer of that class at that address referencing the geometry is tracked, the geometry
is tracked, and one more renderer is tracked than before. -/
def Visualizer.AddGeometry_tracks (v : Visualizer) (g : Geometry) (reset_bounding_box : Bool)
    (cls : RendererClass) : Prop :=
  ((v.make_shared cls).AddGeometry g).1 = true ∧
  ((v.make_shared cls).AddGeometry g).2.cls = cls ∧
  ((v.make_shared cls).AddGeometry g).2.geometry_ptr_ = some g ∧
  (∀ r ∈ v.geometry_renderer_ptrs_, r.ptr ≠ ((v.make_shared cls).AddGeometry g).2.ptr) ∧
  v.AddGeometry g reset_bounding_box =
    (v.insert_tracked ((v.make_shared cls).AddGeometry g).2 g).UpdateGeometry none ∧
  (∃ r ∈ (v.AddGeometry g reset_bounding_box).2.geometry_renderer_ptrs_,
    r.ptr = ((v.make_shared cls).AddGeometry g).2.ptr ∧ r.cls = cls ∧
      r.geometry_ptr_ = some g) ∧
  (∃ x ∈ (v.AddGeometry g reset_bounding_box).2.geometry_ptrs_, x.ptr = g.ptr) ∧
  (v.AddGeometry g reset_bounding_box).2.geometry_renderer_ptrs_.length =
    v.geometry_renderer_ptrs_.length + 1

/-- A geometry of a kind outside the four the source names, at address 4. -/
def sample_other_kind : Geometry :=
  { ptr := 4, GetGeometryType := GeometryType.CoordinateFrameMesh, IsEmpty := false,
    HasNormals := false, HasTriangleNormals := true, HasVertexNormals := true,
    HasTriangleUvs := false, HasTexture := false }

/-- An initialized visualizer tracking nothing, with a clean frame. -/
def sample_visualizer : Visualizer :=
  { is_initialized_ := true, is_redraw_required_ := false, window_should_close := false,
    geometry_renderer_ptrs_ := [], geometry_ptrs_ := [], utility_ptrs_ := [],
    utility_renderer_ptrs_ := [], animation_callback_func_ := none,
    animation_callback_func_in_loop_ := none, redraw_passes := 0 }

/-- An initialized visualizer tracking `sample_pointcloud` through
`sample_pointcloud_renderer`. -/
def sample_visualizer_tracking : Visualizer :=
  { sample_visualizer with
    geometry_renderer_ptrs_ := [sample_pointcloud_renderer]
    geometry_ptrs_ := [sample_pointcloud] }

/-- An initialized visualizer with a registered animation callback and a dirty frame. -/
def sample_visualizer_animated : Visualizer :=
  { sample_visualizer_tracking with
    is_redraw_required_ := true
    animation_callback_func_ := some 0
    animation_callback_func_in_loop_ := some 0 }

/-- A callback that reports no change and leaves the visualizer alone. -/
def sample_callbacks : Nat → Visualizer → Bool × Visualizer :=
  fun _ v => (false, v)

/-! ## Calls, traces and call sequences -/

/-- The renderers `Visualizer::UpdateGeometry(geometry_ptr)` is to call, in the
specification's words: every renderer when no geometry is given, else the renderers
referencing that geometry. -/
def spec_update_selects (geometry_ptr : Option Geometry) (r : GeometryRenderer) : Bool :=
  match geometry_ptr with
  | none => true
  | some g => r.HasGeometry g

/-- A call of one of the three operations that change the tracked sets. -/
inductive TrackedCall where
  | AddGeometry (geometry_ptr : Geometry) (reset_bounding_box : Bool)
  | RemoveGeometry (geometry_ptr : Geometry) (reset_bounding_box : Bool)
  | ClearGeometries
  deriving DecidableEq, Repr

/-- The visualizer after one call. -/
def Visualizer.call (v : Visualizer) : TrackedCall → Visualizer
  | TrackedCall.AddGeometry geometry_ptr reset_bounding_box =>
    (v.AddGeometry geometry_ptr reset_bounding_box).2
  | TrackedCall.RemoveGeometry geometry_ptr reset_bounding_box =>
    (v.RemoveGeometry geometry_ptr reset_bounding_box).2
  | TrackedCall.ClearGeometries => v.ClearGeometries.2

/-- The visualizer after a sequence of calls, first call first. -/
def Visualizer.calls (v : Visualizer) : List TrackedCall → Visualizer
  | [] => v
  | c :: rest => (v.call c).calls rest

/-- Whether no `AddGeometry` call of the sequence is given a geometry that is in
`geometry_ptrs_` at the time of the call. -/
def Visualizer.adds_untracked (v : Visualizer) : List TrackedCall → Bool
  | [] => true
  | c :: rest =>
    (match c with
      | TrackedCall.AddGeometry geometry_ptr _ =>
        !(v.geometry_ptrs_.any (fun x => x.ptr == geometry_ptr.ptr))
      | _ => true) &&
    (v.call c).adds_untracked rest

/-- Every tracked geometry has a tracked renderer referencing it. -/
def Visualizer.geometries_have_renderers (v : Visualizer) : Prop :=
  ∀ x ∈ v.geometry_ptrs_, ∃ r ∈ v.geometry_renderer_ptrs_, r.geometry_is x = true

/-- Every tracked renderer's geometry is in the tracked geometry set. -/
def Visualizer.renderers_have_geometries (v : Visualizer) : Prop :=
  ∀ r ∈ v.geometry_renderer_ptrs_, ∃ x ∈ v.geometry_ptrs_, r.geometry_is x = true

/-- The tracked renderers as pairs of the renderer's address and the address of its
geometry. -/
def Visualizer.renderer_keys (v : Visualizer) : List (Nat × Option Nat) :=
  v.geometry_renderer_ptrs_.map (fun r => (r.ptr, r.geometry_ptr_.map Geometry.ptr))

/-- The addresses of the tracked geometries. -/
def Visualizer.geometry_keys (v : Visualizer) : List Nat :=
  v.geometry_ptrs_.map Geometry.ptr

/-- On the addresses: renderers and geometries are tracked once each, and every tracked
geometry has a tracked renderer. -/
def tracked_ok (rk : List (Nat × Option Nat)) (gk : List Nat) : Prop :=
  (rk.map Prod.fst).Nodup ∧ gk.Nodup ∧ ∀ p ∈ gk, ∃ k ∈ rk, k.2 = some p

/-- On the addresses: in addition every tracked renderer has a tracked geometry, and no
two tracked renderers share a geometry. -/
def tracked_exact (rk : List (Nat × Option Nat)) (gk : List Nat) : Prop :=
  tracked_ok rk gk ∧ (∀ k ∈ rk, ∃ p ∈ gk, k.2 = some p) ∧ (rk.map Prod.snd).Nodup

/-- A call sequence that adds a point cloud and a mesh and removes the point cloud. -/
def sample_calls : List TrackedCall :=
  [TrackedCall.AddGeometry sample_pointcloud true, TrackedCall.AddGeometry sample_mesh true,
    TrackedCall.RemoveGeometry sample_pointcloud true]

/-- A call sequence that adds the same point cloud twice and removes it once. -/
def sample_calls_twice : List TrackedCall :=
  [TrackedCall.AddGeometry sample_pointcloud true,
    TrackedCall.AddGeometry sample_pointcloud true,
    TrackedCall.RemoveGeometry sample_pointcloud true]

/-! ## Renderers: theorems -/

/-- Each renderer class accepts a geometry of the kind it compares against: `AddGeometry`
returns true and stores the pointer. -/
theorem GeometryRenderer.AddGeometry_expected_kind (r : GeometryRenderer) (g : Geometry)
    (h : g.GetGeometryType = r.cls.expected_kind) :
    (r.AddGeometry g).1 = true ∧ (r.AddGeometry g).2.geometry_ptr_ = some g := by
  cases hc : r.cls <;>
    simp [GeometryRenderer.AddGeometry, PointCloudRenderer.AddGeometry,
      TriangleMeshRenderer.AddGeometry, ImageRenderer.AddGeometry,
      CoordinateFrameRenderer.AddGeometry, PointCloudRenderer.UpdateGeometry,
      TriangleMeshRenderer.UpdateGeometry, ImageRenderer.UpdateGeometry,
      CoordinateFrameRenderer.UpdateGeometry, GeometryRenderer.InvalidateGeometry,
      RendererClass.expected_kind, hc, h] at h ⊢

/-- C1: for each of the four renderer classes and every geometry whose kind differs from
the kind the class expects, `AddGeometry` returns false and the renderer, in particular
its stored geometry pointer, is the same after the call as before. -/
theorem GeometryRenderer.AddGeometry_kind_mismatch (r : GeometryRenderer) (g : Geometry)
    (h : g.GetGeometryType ≠ r.cls.expected_kind) :
    (r.AddGeometry g).1 = false ∧ (r.AddGeometry g).2.geometry_ptr_ = r.geometry_ptr_ ∧
      (r.AddGeometry g).2 = r := by
  cases hc : r.cls <;>
    simp [GeometryRenderer.AddGeometry, PointCloudRenderer.AddGeometry,
      TriangleMeshRenderer.AddGeometry, ImageRenderer.AddGeometry,
      CoordinateFrameRenderer.AddGeometry, RendererClass.expected_kind, hc] at h ⊢ <;>
    simp [h]

/-- Witness for C1: a mesh offered to a point-cloud renderer. -/
theorem GeometryRenderer.AddGeometry_kind_mismatch_witness :
    sample_mesh.GetGeometryType ≠ sample_pointcloud_renderer.cls.expected_kind ∧
      (sample_pointcloud_renderer.AddGeometry sample_mesh).1 = false ∧
      (sample_pointcloud_renderer.AddGeometry sample_mesh).2.geometry_ptr_ =
        sample_pointcloud_renderer.geometry_ptr_ ∧
      (sample_pointcloud_renderer.AddGeometry sample_mesh).2 = sample_pointcloud_renderer :=
  ⟨by decide,
    GeometryRenderer.AddGeometry_kind_mismatch sample_pointcloud_renderer sample_mesh
      (by decide)⟩

/-- C2: a visible point-cloud renderer with a non-empty point cloud invokes, under every
render option, exactly the units the specification lists, each once: with normals the
normal-color unit or else the lit unit, then the normal-overlay unit exactly when
`point_show_normal_` is set; without normals the plain unlit unit alone. -/
theorem PointCloudRenderer.Render_point_units (r : GeometryRenderer) (option : RenderOption)
    (shader : ShaderUnit → Bool) (pointcloud : Geometry)
    (hcls : r.cls = RendererClass.PointCloudRenderer) (hvis : r.is_visible_ = true)
    (hgeo : r.geometry_ptr_ = some pointcloud) (hne : pointcloud.IsEmpty = false) :
    ∃ run, r.Render option shader = some run ∧
      run.invoked = spec_pointcloud_units pointcloud option ∧ run.invoked.Nodup := by
  cases hn : pointcloud.HasNormals <;> cases hs : option.point_show_normal_ <;>
    by_cases hc : option.point_color_option_ = PointColorOption.Normal <;>
    simp [GeometryRenderer.Render, PointCloudRenderer.Render, RenderRun.and_render,
      spec_pointcloud_units, hcls, hvis, hgeo, hne, hn, hs, hc]

/-- Witness for C2: normals present, option `Normal`, normals shown. -/
theorem PointCloudRenderer.Render_point_units_witness :
    sample_pointcloud_renderer.cls = RendererClass.PointCloudRenderer ∧
      sample_pointcloud_renderer.is_visible_ = true ∧
      sample_pointcloud_renderer.geometry_ptr_ = some sample_pointcloud ∧
      sample_pointcloud.IsEmpty = false ∧
      ∃ run, sample_pointcloud_renderer.Render sample_option sample_shader = some run ∧
        run.invoked = spec_pointcloud_units sample_pointcloud sample_option ∧
        run.invoked.Nodup :=
  ⟨rfl, rfl, rfl, rfl,
    PointCloudRenderer.Render_point_units sample_pointcloud_renderer sample_option sample_shader
      sample_pointcloud rfl rfl rfl rfl⟩

/-- C3: a visible mesh renderer with a non-empty mesh invokes, under every render option,
exactly one base unit, chosen as the specification says, and in addition the wireframe
overlay unit exactly when `mesh_show_wireframe_` is set. -/
theorem TriangleMeshRenderer.Render_mesh_units (r : GeometryRenderer) (option : RenderOption)
    (shader : ShaderUnit → Bool) (mesh : Geometry)
    (hcls : r.cls = RendererClass.TriangleMeshRenderer) (hvis : r.is_visible_ = true)
    (hgeo : r.geometry_ptr_ = some mesh) (hne : mesh.IsEmpty = false) :
    ∃ run, r.Render option shader = some run ∧
      run.invoked = spec_mesh_units mesh option ∧ run.invoked.Nodup ∧
      (ShaderUnit.simplewhite_wireframe_shader_ ∈ run.invoked ↔
        option.mesh_show_wireframe_ = true) := by
  cases htn : mesh.HasTriangleNormals <;> cases hvn : mesh.HasVertexNormals <;>
    cases huv : mesh.HasTriangleUvs <;> cases htx : mesh.HasTexture <;>
    cases hw : option.mesh_show_wireframe_ <;>
    cases hc : option.mesh_color_option_ <;>
    simp [GeometryRenderer.Render, TriangleMeshRenderer.Render, RenderRun.and_render,
      spec_mesh_units, spec_mesh_base_unit, spec_mesh_textured, hcls, hvis, hgeo, hne, htn,
      hvn, huv, htx, hw, hc]

/-- Witness for C3: normals, UVs and texture present, mode `Color`, wireframe on. -/
theorem TriangleMeshRenderer.Render_mesh_units_witness :
    sample_mesh_renderer.cls = RendererClass.TriangleMeshRenderer ∧
      sample_mesh_renderer.is_visible_ = true ∧
      sample_mesh_renderer.geometry_ptr_ = some sample_mesh ∧
      sample_mesh.IsEmpty = false ∧
      ∃ run, sample_mesh_renderer.Render sample_option sample_shader = some run ∧
        run.invoked = spec_mesh_units sample_mesh sample_option ∧ run.invoked.Nodup ∧
        (ShaderUnit.simplewhite_wireframe_shader_ ∈ run.invoked ↔
          sample_option.mesh_show_wireframe_ = true) :=
  ⟨rfl, rfl, rfl, rfl,
    TriangleMeshRenderer.Render_mesh_units sample_mesh_renderer sample_option sample_shader
      sample_mesh rfl rfl rfl rfl⟩

/-- C4: for every renderer class, `Render` returns true and invokes no unit when the
renderer is not visible or its geometry is empty; and a coordinate-frame renderer with a
geometry does the same when `show_coordinate_frame_` is false, whatever that geometry
holds. -/
theorem GeometryRenderer.Render_nothing (r : GeometryRenderer) (option : RenderOption)
    (shader : ShaderUnit → Bool) :
    ((r.is_visible_ = false ∨ ∃ g, r.geometry_ptr_ = some g ∧ g.IsEmpty = true) →
      r.Render option shader = some { success := true, invoked := [] }) ∧
    (r.cls = RendererClass.CoordinateFrameRenderer → option.show_coordinate_frame_ = false →
      ∀ g, r.geometry_ptr_ = some g →
        r.Render option shader = some { success := true, invoked := [] }) := by
  constructor
  · rintro (hvis | ⟨g, hg, he⟩)
    · cases hc : r.cls <;>
        simp [GeometryRenderer.Render, PointCloudRenderer.Render, TriangleMeshRenderer.Render,
          ImageRenderer.Render, CoordinateFrameRenderer.Render, hc, hvis]
    · cases hc : r.cls <;> cases hv : r.is_visible_ <;>
        simp [GeometryRenderer.Render, PointCloudRenderer.Render, TriangleMeshRenderer.Render,
          ImageRenderer.Render, CoordinateFrameRenderer.Render, hc, hv, hg, he]
  · intro hc hshow g hg
    cases hv : r.is_visible_ <;> cases he : g.IsEmpty <;>
      simp [GeometryRenderer.Render, CoordinateFrameRenderer.Render, hc, hv, hg, he, hshow]

/-- Witness for C4: an image renderer whose image is empty, and a coordinate-frame
renderer with a non-empty mesh while the coordinate frame is switched off. -/
theorem GeometryRenderer.Render_nothing_witness :
    (sample_image_renderer.is_visible_ = false ∨
      ∃ g, sample_image_renderer.geometry_ptr_ = some g ∧ g.IsEmpty = true) ∧
    sample_image_renderer.Render sample_option sample_shader =
      some { success := true, invoked := [] } ∧
    sample_frame_renderer.cls = RendererClass.CoordinateFrameRenderer ∧
    sample_option.show_coordinate_frame_ = false ∧
    sample_frame_renderer.geometry_ptr_ = some sample_mesh ∧
    sample_frame_renderer.Render sample_option sample_shader =
      some { success := true, invoked := [] } :=
  ⟨Or.inr ⟨sample_image, rfl, rfl⟩,
    (GeometryRenderer.Render_nothing sample_image_renderer sample_option sample_shader).1
      (Or.inr ⟨sample_image, rfl, rfl⟩),
    rfl, rfl, rfl,
    (GeometryRenderer.Render_nothing sample_frame_renderer sample_option sample_shader).2
      rfl rfl sample_mesh rfl⟩

theorem PointCloudRenderer.Render_point_selected (r : GeometryRenderer) (option : RenderOption)
    (shader : ShaderUnit → Bool) (g : Geometry)
    (hcls : r.cls = RendererClass.PointCloudRenderer)
    (hvis : r.is_visible_ = true) (hgeo : r.geometry_ptr_ = some g)
    (hne : g.IsEmpty = false) :
    r.Render option shader =
      some { success := (spec_selected_units r.cls g option).all shader
             invoked := spec_selected_units r.cls g option } := by
  cases hn : g.HasNormals <;> cases hs : option.point_show_normal_ <;>
    by_cases hcol : option.point_color_option_ = PointColorOption.Normal <;>
    simp [GeometryRenderer.Render, PointCloudRenderer.Render, RenderRun.and_render,
      spec_selected_units, spec_pointcloud_units, hcls, hvis, hgeo, hne, hn, hs, hcol]

theorem TriangleMeshRenderer.Render_mesh_selected (r : GeometryRenderer) (option : RenderOption)
    (shader : ShaderUnit → Bool) (g : Geometry)
    (hcls : r.cls = RendererClass.TriangleMeshRenderer)
    (hvis : r.is_visible_ = true) (hgeo : r.geometry_ptr_ = some g)
    (hne : g.IsEmpty = false) :
    r.Render option shader =
      some { success := (spec_selected_units r.cls g option).all shader
             invoked := spec_selected_units r.cls g option } := by
  cases htn : g.HasTriangleNormals <;> cases hvn : g.HasVertexNormals <;>
    cases huv : g.HasTriangleUvs <;> cases htx : g.HasTexture <;>
    cases hw : option.mesh_show_wireframe_ <;>
    cases hcol : option.mesh_color_option_ <;>
    simp [GeometryRenderer.Render, TriangleMeshRenderer.Render, RenderRun.and_render,
      spec_selected_units, spec_mesh_units, spec_mesh_base_unit, spec_mesh_textured,
      hcls, hvis, hgeo, hne, htn, hvn, huv, htx, hw, hcol]

/-- C5: for a visible point-cloud or mesh renderer with a non-empty geometry, `Render`
invokes every selected unit (the units of the specification's selection rule for the
renderer's class), whatever results the units give: a failing base unit keeps neither the
normal-overlay unit nor the wireframe overlay unit from being invoked.  The returned value
is the conjunction of the results of the selected units, and it is false exactly when one
of the invoked units returned false. -/
theorem GeometryRenderer.Render_accumulates (r : GeometryRenderer) (option : RenderOption)
    (shader : ShaderUnit → Bool) (g : Geometry)
    (hcls : r.cls = RendererClass.PointCloudRenderer ∨
      r.cls = RendererClass.TriangleMeshRenderer)
    (hvis : r.is_visible_ = true) (hgeo : r.geometry_ptr_ = some g)
    (hne : g.IsEmpty = false) :
    ∃ run, r.Render option shader = some run ∧
      run.invoked = spec_selected_units r.cls g option ∧
      run.success = (spec_selected_units r.cls g option).all shader ∧
      run.success = run.invoked.all shader ∧
      (∀ other : ShaderUnit → Bool,
        (r.Render option other).map RenderRun.invoked =
          some (spec_selected_units r.cls g option)) ∧
      (∀ other : ShaderUnit → Bool,
        (r.Render option other).map RenderRun.invoked = some run.invoked) ∧
      (run.success = false ↔ ∃ unit ∈ run.invoked, shader unit = false) ∧
      (r.cls = RendererClass.PointCloudRenderer → g.HasNormals = true →
        option.point_show_normal_ = true →
        ShaderUnit.simplewhite_normal_shader_ ∈ run.invoked) ∧
      (r.cls = RendererClass.TriangleMeshRenderer → option.mesh_show_wireframe_ = true →
        ShaderUnit.simplewhite_wireframe_shader_ ∈ run.invoked) := by
  have hsel : ∀ other : ShaderUnit → Bool, r.Render option other =
      some { success := (spec_selected_units r.cls g option).all other
             invoked := spec_selected_units r.cls g option } := by
    intro other
    rcases hcls with hc | hc
    · exact PointCloudRenderer.Render_point_selected r option other g hc hvis hgeo hne
    · exact TriangleMeshRenderer.Render_mesh_selected r option other g hc hvis hgeo hne
  refine ⟨_, hsel shader, rfl, rfl, rfl, ?_, ?_, ?_, ?_, ?_⟩
  · intro other
    rw [hsel other]
    rfl
  · intro other
    rw [hsel other]
    rfl
  · simp [List.all_eq_false]
  · intro hc hn hs
    simp [spec_selected_units, spec_pointcloud_units, hc, hn, hs]
  · intro hc hw
    simp [spec_selected_units, spec_mesh_units, hc, hw]

/-- Witness for C5: the base unit of the mesh renderer fails and the wireframe unit is
invoked all the same. -/
theorem GeometryRenderer.Render_accumulates_witness :
    (sample_mesh_renderer.cls = RendererClass.PointCloudRenderer ∨
      sample_mesh_renderer.cls = RendererClass.TriangleMeshRenderer) ∧
    sample_mesh_renderer.is_visible_ = true ∧
    sample_mesh_renderer.geometry_ptr_ = some sample_mesh ∧
    sample_mesh.IsEmpty = false ∧
    sample_shader ShaderUnit.texture_phong_mesh_shader_ = false ∧
    ∃ run, sample_mesh_renderer.Render sample_option sample_shader = some run ∧
      run.invoked = spec_selected_units sample_mesh_renderer.cls sample_mesh sample_option ∧
      run.success =
        (spec_selected_units sample_mesh_renderer.cls sample_mesh sample_option).all
          sample_shader ∧
      run.success = run.invoked.all sample_shader ∧
      (∀ other : ShaderUnit → Bool,
        (sample_mesh_renderer.Render sample_option other).map RenderRun.invoked =
          some (spec_selected_units sample_mesh_renderer.cls sample_mesh sample_option)) ∧
      (∀ other : ShaderUnit → Bool,
        (sample_mesh_renderer.Render sample_option other).map RenderRun.invoked =
          some run.invoked) ∧
      (run.success = false ↔ ∃ unit ∈ run.invoked, sample_shader unit = false) ∧
      (sample_mesh_renderer.cls = RendererClass.PointCloudRenderer →
        sample_mesh.HasNormals = true → sample_option.point_show_normal_ = true →
        ShaderUnit.simplewhite_normal_shader_ ∈ run.invoked) ∧
      (sample_mesh_renderer.cls = RendererClass.TriangleMeshRenderer →
        sample_option.mesh_show_wireframe_ = true →
        ShaderUnit.simplewhite_wireframe_shader_ ∈ run.invoked) :=
  ⟨Or.inr rfl, rfl, rfl, rfl, rfl,
    GeometryRenderer.Render_accumulates sample_mesh_renderer sample_option sample_shader
      sample_mesh (Or.inr rfl) rfl rfl rfl⟩

/-! ## Tracked sets: lemmas -/

theorem set_erase_length {α : Type} (address : α → Nat) (key : Nat) (s : List α)
    (h : ∃ y ∈ s, address y = key) :
    (set_erase address key s).length + 1 = s.length := by
  induction s with
  | nil => simp at h
  | cons y rest ih =>
    by_cases hy : address y = key
    · simp [set_erase, hy]
    · have hrest : ∃ z ∈ rest, address z = key := by
        rcases h with ⟨z, hz, hk⟩
        rcases List.mem_cons.mp hz with rfl | hz
        · exact absurd hk hy
        · exact ⟨z, hz, hk⟩
      simp [set_erase, hy, ih hrest]

theorem set_erase_absent {α : Type} (address : α → Nat) (key : Nat) (s : List α)
    (h : ∀ y ∈ s, address y ≠ key) : set_erase address key s = s := by
  induction s with
  | nil => rfl
  | cons y rest ih =>
    have hy : address y ≠ key := h y (List.mem_cons_self _ _)
    have hrest : ∀ z ∈ rest, address z ≠ key := fun z hz => h z (List.mem_cons_of_mem _ hz)
    simp [set_erase, hy, ih hrest]

theorem set_insert_absent {α : Type} (address : α → Nat) (x : α) (s : List α)
    (h : ∀ y ∈ s, address y ≠ address x) : set_insert address x s = s ++ [x] := by
  have hany : s.any (fun y => address y == address x) = false := by
    rw [List.any_eq_false]
    intro y hy
    simpa using h y hy
  simp [set_insert, hany]

theorem set_insert_present {α : Type} (address : α → Nat) (x : α) (s : List α)
    (h : ∃ y ∈ s, address y = address x) : set_insert address x s = s := by
  have hany : s.any (fun y => address y == address x) = true := by
    rw [List.any_eq_true]
    rcases h with ⟨y, hy, hk⟩
    exact ⟨y, hy, by simpa using hk⟩
  simp [set_insert, hany]

theorem set_insert_has {α : Type} (address : α → Nat) (x : α) (s : List α) :
    ∃ y ∈ set_insert address x s, address y = address x := by
  by_cases h : ∃ y ∈ s, address y = address x
  · rw [set_insert_present address x s h]
    exact h
  · have habs : ∀ y ∈ s, address y ≠ address x := fun y hy hk => h ⟨y, hy, hk⟩
    rw [set_insert_absent address x s habs]
    exact ⟨x, by simp, rfl⟩

theorem fresh_address_gt (rs : List GeometryRenderer) :
    ∀ r ∈ rs, r.ptr < fresh_address rs := by
  induction rs with
  | nil => simp
  | cons y rest ih =>
    intro r hr
    rcases List.mem_cons.mp hr with rfl | hr
    · simp only [fresh_address]
      omega
    · have := ih r hr
      simp only [fresh_address]
      omega

theorem Visualizer.make_shared_fresh (v : Visualizer) (cls : RendererClass) :
    ∀ r ∈ v.geometry_renderer_ptrs_, r.ptr ≠ (v.make_shared cls).ptr := by
  intro r hr
  have := fresh_address_gt (v.geometry_renderer_ptrs_ ++ v.utility_renderer_ptrs_) r
    (List.mem_append_left _ hr)
  simp only [Visualizer.make_shared]
  omega

theorem GeometryRenderer.UpdateGeometry_keeps (r : GeometryRenderer) :
    r.UpdateGeometry.1 = true ∧ r.UpdateGeometry.2.ptr = r.ptr ∧
      r.UpdateGeometry.2.cls = r.cls ∧
      r.UpdateGeometry.2.geometry_ptr_ = r.geometry_ptr_ := by
  cases hc : r.cls <;>
    simp [GeometryRenderer.UpdateGeometry, PointCloudRenderer.UpdateGeometry,
      TriangleMeshRenderer.UpdateGeometry, ImageRenderer.UpdateGeometry,
      CoordinateFrameRenderer.UpdateGeometry, GeometryRenderer.InvalidateGeometry, hc]

theorem GeometryRenderer.AddGeometry_keeps_ptr (r : GeometryRenderer) (g : Geometry) :
    (r.AddGeometry g).2.ptr = r.ptr ∧ (r.AddGeometry g).2.cls = r.cls := by
  cases hc : r.cls <;> by_cases hk : g.GetGeometryType = r.cls.expected_kind <;>
    simp [GeometryRenderer.AddGeometry, PointCloudRenderer.AddGeometry,
      TriangleMeshRenderer.AddGeometry, ImageRenderer.AddGeometry,
      CoordinateFrameRenderer.AddGeometry, PointCloudRenderer.UpdateGeometry,
      TriangleMeshRenderer.UpdateGeometry, ImageRenderer.UpdateGeometry,
      CoordinateFrameRenderer.UpdateGeometry, GeometryRenderer.InvalidateGeometry,
      RendererClass.expected_kind, hc] at hk ⊢ <;>
    simp [hk, hc]

/-- The loop of `UpdateGeometry` keeps the renderers in place: the result has, position by
position, the addresses, classes and geometry pointers it started with. -/
theorem Visualizer.UpdateGeometry_loop_keeps (geometry_ptr : Option Geometry)
    (rs : List GeometryRenderer) :
    ∀ success : Bool,
      (Visualizer.UpdateGeometry_loop geometry_ptr success rs).2.map
          (fun r => (r.ptr, r.cls, r.geometry_ptr_)) =
        rs.map (fun r => (r.ptr, r.cls, r.geometry_ptr_)) := by
  induction rs with
  | nil => intro success; simp [Visualizer.UpdateGeometry_loop]
  | cons y rest ih =>
    intro success
    have hy := GeometryRenderer.UpdateGeometry_keeps y
    simp only [Visualizer.UpdateGeometry_loop]
    split_ifs <;> simp [ih, hy.2.1, hy.2.2.1, hy.2.2.2]

theorem Visualizer.UpdateGeometry_loop_length (geometry_ptr : Option Geometry)
    (success : Bool) (rs : List GeometryRenderer) :
    (Visualizer.UpdateGeometry_loop geometry_ptr success rs).2.length = rs.length := by
  have h := congrArg List.length (Visualizer.UpdateGeometry_loop_keeps geometry_ptr rs success)
  simpa using h

theorem Visualizer.UpdateGeometry_loop_mem (geometry_ptr : Option Geometry)
    (success : Bool) (rs : List GeometryRenderer) (r : GeometryRenderer) (hr : r ∈ rs) :
    ∃ d ∈ (Visualizer.UpdateGeometry_loop geometry_ptr success rs).2,
      d.ptr = r.ptr ∧ d.cls = r.cls ∧ d.geometry_ptr_ = r.geometry_ptr_ := by
  have h := Visualizer.UpdateGeometry_loop_keeps geometry_ptr rs success
  have hm : (r.ptr, r.cls, r.geometry_ptr_) ∈
      rs.map (fun r => (r.ptr, r.cls, r.geometry_ptr_)) := List.mem_map.mpr ⟨r, hr, rfl⟩
  rw [← h] at hm
  rcases List.mem_map.mp hm with ⟨d, hd, he⟩
  simp only [Prod.mk.injEq] at he
  exact ⟨d, hd, he.1, he.2.1, he.2.2⟩

/-- With every renderer's `UpdateGeometry` returning true, a pass started with `success`
true ends with `success` true. -/
theorem Visualizer.UpdateGeometry_loop_true (geometry_ptr : Option Geometry)
    (rs : List GeometryRenderer) :
    (Visualizer.UpdateGeometry_loop geometry_ptr true rs).1 = true := by
  induction rs with
  | nil => simp [Visualizer.UpdateGeometry_loop]
  | cons y rest ih =>
    have hy := GeometryRenderer.UpdateGeometry_keeps y
    simp only [Visualizer.UpdateGeometry_loop]
    split_ifs <;> simp [ih, hy.1]

theorem Visualizer.UpdateGeometry_fields (v : Visualizer) (geometry_ptr : Option Geometry) :
    (v.UpdateGeometry geometry_ptr).1 = true ∧
    (v.UpdateGeometry geometry_ptr).2.is_initialized_ = v.is_initialized_ ∧
    (v.UpdateGeometry geometry_ptr).2.is_redraw_required_ = true ∧
    (v.UpdateGeometry geometry_ptr).2.geometry_ptrs_ = v.geometry_ptrs_ ∧
    (v.UpdateGeometry geometry_ptr).2.geometry_renderer_ptrs_ =
      (Visualizer.UpdateGeometry_loop geometry_ptr true v.geometry_renderer_ptrs_).2 := by
  simp [Visualizer.UpdateGeometry, Visualizer.UpdateRender,
    Visualizer.UpdateGeometry_loop_true]

theorem Visualizer.RemoveGeometry_find_absent (g : Geometry) (rs : List GeometryRenderer)
    (h : ∀ r ∈ rs, r.geometry_is g = false) :
    ∀ acc, Visualizer.RemoveGeometry_find g acc rs = acc := by
  induction rs with
  | nil => intro acc; rfl
  | cons y rest ih =>
    intro acc
    have hy : y.geometry_is g = false := h y (List.mem_cons_self _ _)
    have hrest : ∀ r ∈ rest, r.geometry_is g = false :=
      fun r hr => h r (List.mem_cons_of_mem _ hr)
    simp [Visualizer.RemoveGeometry_find, hy, ih hrest]

theorem Visualizer.RemoveGeometry_find_present (g : Geometry) (rs : List GeometryRenderer)
    (h : ∃ r ∈ rs, r.geometry_is g = true) :
    ∀ acc, ∃ d ∈ rs, d.geometry_is g = true ∧
      Visualizer.RemoveGeometry_find g acc rs = some d := by
  induction rs with
  | nil => simp at h
  | cons y rest ih =>
    intro acc
    by_cases hrest : ∃ r ∈ rest, r.geometry_is g = true
    · rcases ih hrest (if y.geometry_is g then some y else acc) with ⟨d, hd, hg, hf⟩
      refine ⟨d, List.mem_cons_of_mem _ hd, hg, ?_⟩
      by_cases hy : y.geometry_is g = true
      · simpa [Visualizer.RemoveGeometry_find, hy] using hf
      · simpa [Visualizer.RemoveGeometry_find, hy] using hf
    · have hy : y.geometry_is g = true := by
        rcases h with ⟨r, hr, hg⟩
        rcases List.mem_cons.mp hr with rfl | hr
        · exact hg
        · exact absurd ⟨r, hr, hg⟩ hrest
      have hnone : ∀ r ∈ rest, r.geometry_is g = false := by
        intro r hr
        cases hg : r.geometry_is g
        · rfl
        · exact absurd ⟨r, hr, hg⟩ hrest
      refine ⟨y, List.mem_cons_self _ _, hy, ?_⟩
      simp [Visualizer.RemoveGeometry_find, hy,
        Visualizer.RemoveGeometry_find_absent g rest hnone]

/-! ## The visualizer: theorems -/

theorem Visualizer.AddGeometry_accepted (v : Visualizer) (g : Geometry)
    (reset_bounding_box : Bool) (cls : RendererClass) (hinit : v.is_initialized_ = true)
    (hcls : cls ≠ RendererClass.CoordinateFrameRenderer)
    (hk : g.GetGeometryType = cls.expected_kind) :
    v.AddGeometry g reset_bounding_box =
      (v.insert_tracked ((v.make_shared cls).AddGeometry g).2 g).UpdateGeometry none := by
  cases cls <;>
    simp [Visualizer.AddGeometry, Visualizer.insert_tracked, Visualizer.make_shared,
      GeometryRenderer.AddGeometry, PointCloudRenderer.AddGeometry,
      TriangleMeshRenderer.AddGeometry, ImageRenderer.AddGeometry,
      PointCloudRenderer.UpdateGeometry, TriangleMeshRenderer.UpdateGeometry,
      ImageRenderer.UpdateGeometry, RendererClass.expected_kind, hinit, hk] at hcls hk ⊢

theorem Visualizer.RemoveGeometry_present (v : Visualizer) (g : Geometry)
    (reset_bounding_box : Bool) (hinit : v.is_initialized_ = true)
    (h : ∃ r ∈ v.geometry_renderer_ptrs_, r.geometry_is g = true) :
    ∃ d ∈ v.geometry_renderer_ptrs_, d.geometry_is g = true ∧
      v.RemoveGeometry g reset_bounding_box =
        ({ v with
            geometry_renderer_ptrs_ :=
              set_erase GeometryRenderer.ptr d.ptr v.geometry_renderer_ptrs_
            geometry_ptrs_ := set_erase Geometry.ptr g.ptr v.geometry_ptrs_ } :
          Visualizer).UpdateGeometry none := by
  rcases Visualizer.RemoveGeometry_find_present g v.geometry_renderer_ptrs_ h none with
    ⟨d, hd, hg, hf⟩
  exact ⟨d, hd, hg, by simp [Visualizer.RemoveGeometry, hinit, hf]⟩

/-- C6: for a geometry that no tracked renderer references, `RemoveGeometry` returns false
and leaves the visualizer, in particular both tracked sets with their elements and their
cardinalities, as it was, for either value of `reset_bounding_box` (and whether or not the
visualizer is initialized). -/
theorem Visualizer.RemoveGeometry_untracked (v : Visualizer) (g : Geometry)
    (reset_bounding_box : Bool)
    (h : ∀ r ∈ v.geometry_renderer_ptrs_, r.geometry_is g = false) :
    (v.RemoveGeometry g reset_bounding_box).1 = false ∧
    (v.RemoveGeometry g reset_bounding_box).2.geometry_renderer_ptrs_ =
      v.geometry_renderer_ptrs_ ∧
    (v.RemoveGeometry g reset_bounding_box).2.geometry_ptrs_ = v.geometry_ptrs_ ∧
    (v.RemoveGeometry g reset_bounding_box).2.geometry_renderer_ptrs_.length =
      v.geometry_renderer_ptrs_.length ∧
    (v.RemoveGeometry g reset_bounding_box).2.geometry_ptrs_.length =
      v.geometry_ptrs_.length ∧
    (v.RemoveGeometry g reset_bounding_box).2 = v := by
  have hf := Visualizer.RemoveGeometry_find_absent g v.geometry_renderer_ptrs_ h none
  cases hi : v.is_initialized_ <;> simp [Visualizer.RemoveGeometry, hi, hf]

/-- Witness for C6: an initialized visualizer tracking a point cloud is asked to remove a
mesh it never tracked. -/
theorem Visualizer.RemoveGeometry_untracked_witness :
    (∀ r ∈ sample_visualizer_tracking.geometry_renderer_ptrs_,
      r.geometry_is sample_mesh = false) ∧
    sample_visualizer_tracking.is_initialized_ = true ∧
    (sample_visualizer_tracking.RemoveGeometry sample_mesh true).1 = false ∧
    (sample_visualizer_tracking.RemoveGeometry sample_mesh true).2.geometry_renderer_ptrs_ =
      sample_visualizer_tracking.geometry_renderer_ptrs_ ∧
    (sample_visualizer_tracking.RemoveGeometry sample_mesh true).2.geometry_ptrs_ =
      sample_visualizer_tracking.geometry_ptrs_ ∧
    (sample_visualizer_tracking.RemoveGeometry sample_mesh true).2.geometry_renderer_ptrs_.length
      = sample_visualizer_tracking.geometry_renderer_ptrs_.length ∧
    (sample_visualizer_tracking.RemoveGeometry sample_mesh true).2.geometry_ptrs_.length =
      sample_visualizer_tracking.geometry_ptrs_.length ∧
    (sample_visualizer_tracking.RemoveGeometry sample_mesh true).2 =
      sample_visualizer_tracking :=
  ⟨by decide, rfl,
    Visualizer.RemoveGeometry_untracked sample_visualizer_tracking sample_mesh true
      (by decide)⟩

theorem Visualizer.add_then_remove_lengths (v : Visualizer) (g : Geometry)
    (reset_add reset_remove : Bool) (cls : RendererClass)
    (hinit : v.is_initialized_ = true)
    (hcls : cls ≠ RendererClass.CoordinateFrameRenderer)
    (hk : g.GetGeometryType = cls.expected_kind) :
    ((v.AddGeometry g reset_add).2.RemoveGeometry g reset_remove).2.geometry_renderer_ptrs_.length
      = v.geometry_renderer_ptrs_.length ∧
    ((∀ x ∈ v.geometry_ptrs_, x.ptr ≠ g.ptr) →
      ((v.AddGeometry g reset_add).2.RemoveGeometry g reset_remove).2.geometry_ptrs_.length =
        v.geometry_ptrs_.length) ∧
    ((∃ x ∈ v.geometry_ptrs_, x.ptr = g.ptr) →
      ((v.AddGeometry g reset_add).2.RemoveGeometry g reset_remove).2.geometry_ptrs_.length + 1
        = v.geometry_ptrs_.length) := by
  have hadd := Visualizer.AddGeometry_accepted v g reset_add cls hinit hcls hk
  have hacc := GeometryRenderer.AddGeometry_expected_kind (v.make_shared cls) g
    (by simpa [Visualizer.make_shared] using hk)
  have hptr := (GeometryRenderer.AddGeometry_keeps_ptr (v.make_shared cls) g).1
  generalize ((v.make_shared cls).AddGeometry g).2 = renderer_ptr at hadd hacc hptr
  have hfresh : ∀ r ∈ v.geometry_renderer_ptrs_, r.ptr ≠ renderer_ptr.ptr := by
    rw [hptr]
    exact Visualizer.make_shared_fresh v cls
  have hins : set_insert GeometryRenderer.ptr renderer_ptr v.geometry_renderer_ptrs_ =
      v.geometry_renderer_ptrs_ ++ [renderer_ptr] := set_insert_absent _ _ _ hfresh
  obtain ⟨-, hi1, -, hg1, hr1⟩ :=
    Visualizer.UpdateGeometry_fields (v.insert_tracked renderer_ptr g) none
  rw [← hadd] at hi1 hg1 hr1
  simp only [Visualizer.insert_tracked, hins] at hi1 hg1 hr1
  -- the renderer made for the call is tracked after the add and references `g`
  have hhas : ∃ r ∈ (v.AddGeometry g reset_add).2.geometry_renderer_ptrs_,
      r.geometry_is g = true := by
    rcases Visualizer.UpdateGeometry_loop_mem none true
      (v.geometry_renderer_ptrs_ ++ [renderer_ptr]) renderer_ptr (by simp) with
      ⟨d, hd, -, -, hdg⟩
    refine ⟨d, by rw [hr1]; exact hd, ?_⟩
    simp [GeometryRenderer.geometry_is, hdg, hacc.2]
  have hlen1 : (v.AddGeometry g reset_add).2.geometry_renderer_ptrs_.length =
      v.geometry_renderer_ptrs_.length + 1 := by
    rw [hr1, Visualizer.UpdateGeometry_loop_length]
    simp
  rcases Visualizer.RemoveGeometry_present (v.AddGeometry g reset_add).2 g reset_remove
    (by rw [hi1]; exact hinit) hhas with ⟨d, hd, -, hrem⟩
  obtain ⟨-, -, -, hg2, hr2⟩ := Visualizer.UpdateGeometry_fields
    ({ (v.AddGeometry g reset_add).2 with
        geometry_renderer_ptrs_ := set_erase GeometryRenderer.ptr d.ptr
          (v.AddGeometry g reset_add).2.geometry_renderer_ptrs_
        geometry_ptrs_ := set_erase Geometry.ptr g.ptr
          (v.AddGeometry g reset_add).2.geometry_ptrs_ } : Visualizer) none
  rw [← hrem] at hg2 hr2
  simp only at hg2 hr2
  have herase := set_erase_length GeometryRenderer.ptr d.ptr
    (v.AddGeometry g reset_add).2.geometry_renderer_ptrs_ ⟨d, hd, rfl⟩
  have hgerase := set_erase_length Geometry.ptr g.ptr
    (set_insert Geometry.ptr g v.geometry_ptrs_) (set_insert_has Geometry.ptr g _)
  refine ⟨?_, ?_, ?_⟩
  · rw [hr2, Visualizer.UpdateGeometry_loop_length]
    omega
  · intro habs
    rw [hg2, hg1]
    rw [set_insert_absent Geometry.ptr g v.geometry_ptrs_ habs] at hgerase ⊢
    simp at hgerase
    omega
  · intro hpres
    rw [hg2, hg1]
    rw [set_insert_present Geometry.ptr g v.geometry_ptrs_ hpres] at hgerase ⊢
    exact hgerase

/-- C7 (amended): on an initialized visualizer and for a geometry of an accepted kind,
`AddGeometry(g)` followed at once by `RemoveGeometry(g)` leaves the tracked renderer set
with the cardinality it had before the add, in every prior state, and leaves the tracked
geometry set with the cardinality it had before the add when `g` was not in that set
before the add. -/
theorem Visualizer.AddGeometry_then_RemoveGeometry (v : Visualizer) (g : Geometry)
    (reset_add reset_remove : Bool) (hinit : v.is_initialized_ = true)
    (hkind : g.GetGeometryType = GeometryType.PointCloud ∨
      g.GetGeometryType = GeometryType.TriangleMesh ∨
      g.GetGeometryType = GeometryType.Image) :
    ((v.AddGeometry g reset_add).2.RemoveGeometry g reset_remove).2.geometry_renderer_ptrs_.length
      = v.geometry_renderer_ptrs_.length ∧
    ((∀ x ∈ v.geometry_ptrs_, x.ptr ≠ g.ptr) →
      ((v.AddGeometry g reset_add).2.RemoveGeometry g reset_remove).2.geometry_ptrs_.length =
        v.geometry_ptrs_.length) := by
  rcases hkind with hk | hk | hk
  · exact ⟨(Visualizer.add_then_remove_lengths v g reset_add reset_remove
      RendererClass.PointCloudRenderer hinit (by decide) hk).1,
      (Visualizer.add_then_remove_lengths v g reset_add reset_remove
      RendererClass.PointCloudRenderer hinit (by decide) hk).2.1⟩
  · exact ⟨(Visualizer.add_then_remove_lengths v g reset_add reset_remove
      RendererClass.TriangleMeshRenderer hinit (by decide) hk).1,
      (Visualizer.add_then_remove_lengths v g reset_add reset_remove
      RendererClass.TriangleMeshRenderer hinit (by decide) hk).2.1⟩
  · exact ⟨(Visualizer.add_then_remove_lengths v g reset_add reset_remove
      RendererClass.ImageRenderer hinit (by decide) hk).1,
      (Visualizer.add_then_remove_lengths v g reset_add reset_remove
      RendererClass.ImageRenderer hinit (by decide) hk).2.1⟩

/-- Witness for C7: a mesh is added to and removed from a visualizer that tracks a point
cloud. -/
theorem Visualizer.AddGeometry_then_RemoveGeometry_witness :
    sample_visualizer_tracking.is_initialized_ = true ∧
    (sample_mesh.GetGeometryType = GeometryType.PointCloud ∨
      sample_mesh.GetGeometryType = GeometryType.TriangleMesh ∨
      sample_mesh.GetGeometryType = GeometryType.Image) ∧
    (∀ x ∈ sample_visualizer_tracking.geometry_ptrs_, x.ptr ≠ sample_mesh.ptr) ∧
    ((sample_visualizer_tracking.AddGeometry sample_mesh true).2.RemoveGeometry
        sample_mesh true).2.geometry_renderer_ptrs_.length
      = sample_visualizer_tracking.geometry_renderer_ptrs_.length ∧
    ((sample_visualizer_tracking.AddGeometry sample_mesh true).2.RemoveGeometry
        sample_mesh true).2.geometry_ptrs_.length =
      sample_visualizer_tracking.geometry_ptrs_.length :=
  ⟨rfl, Or.inr (Or.inl rfl), by decide,
    (Visualizer.AddGeometry_then_RemoveGeometry sample_visualizer_tracking sample_mesh true
      true rfl (Or.inr (Or.inl rfl))).1,
    (Visualizer.AddGeometry_then_RemoveGeometry sample_visualizer_tracking sample_mesh true
      true rfl (Or.inr (Or.inl rfl))).2 (by decide)⟩

/-- Counterexample for C7 as stated: the visualizer tracks `sample_pointcloud` through one
renderer; adding the same point cloud again and removing it succeeds both times and brings
the renderer set back to one element, but leaves the geometry set empty where it had one
element before the add. -/
theorem Visualizer.AddGeometry_then_RemoveGeometry_counterexample :
    sample_visualizer_tracking.is_initialized_ = true ∧
    sample_pointcloud.GetGeometryType = GeometryType.PointCloud ∧
    (sample_visualizer_tracking.AddGeometry sample_pointcloud true).1 = true ∧
    ((sample_visualizer_tracking.AddGeometry sample_pointcloud true).2.RemoveGeometry
      sample_pointcloud true).1 = true ∧
    sample_visualizer_tracking.geometry_renderer_ptrs_.length = 1 ∧
    ((sample_visualizer_tracking.AddGeometry sample_pointcloud true).2.RemoveGeometry
      sample_pointcloud true).2.geometry_renderer_ptrs_.length = 1 ∧
    sample_visualizer_tracking.geometry_ptrs_.length = 1 ∧
    ((sample_visualizer_tracking.AddGeometry sample_pointcloud true).2.RemoveGeometry
      sample_pointcloud true).2.geometry_ptrs_.length = 0 := by
  decide

theorem Visualizer.AddGeometry_tracks_cls (v : Visualizer) (g : Geometry)
    (reset_bounding_box : Bool) (cls : RendererClass) (hinit : v.is_initialized_ = true)
    (hcls : cls ≠ RendererClass.CoordinateFrameRenderer)
    (hk : g.GetGeometryType = cls.expected_kind) :
    v.AddGeometry_tracks g reset_bounding_box cls := by
  have hadd := Visualizer.AddGeometry_accepted v g reset_bounding_box cls hinit hcls hk
  have hacc := GeometryRenderer.AddGeometry_expected_kind (v.make_shared cls) g
    (by simpa [Visualizer.make_shared] using hk)
  have hkeep := GeometryRenderer.AddGeometry_keeps_ptr (v.make_shared cls) g
  have hfresh : ∀ r ∈ v.geometry_renderer_ptrs_,
      r.ptr ≠ ((v.make_shared cls).AddGeometry g).2.ptr := by
    rw [hkeep.1]
    exact Visualizer.make_shared_fresh v cls
  have hins := set_insert_absent GeometryRenderer.ptr _ _ hfresh
  obtain ⟨-, -, -, hg1, hr1⟩ := Visualizer.UpdateGeometry_fields
    (v.insert_tracked ((v.make_shared cls).AddGeometry g).2 g) none
  rw [← hadd] at hg1 hr1
  simp only [Visualizer.insert_tracked, hins] at hg1 hr1
  refine ⟨hacc.1, ?_, hacc.2, hfresh, hadd, ?_, ?_, ?_⟩
  · rw [hkeep.2]
    rfl
  · rcases Visualizer.UpdateGeometry_loop_mem none true
      (v.geometry_renderer_ptrs_ ++ [((v.make_shared cls).AddGeometry g).2])
      ((v.make_shared cls).AddGeometry g).2 (by simp) with ⟨d, hd, hp, hc, hdg⟩
    refine ⟨d, by rw [hr1]; exact hd, hp, ?_, ?_⟩
    · rw [hc, hkeep.2]
      rfl
    · rw [hdg, hacc.2]
  · rw [hg1]
    exact set_insert_has Geometry.ptr g v.geometry_ptrs_
  · rw [hr1, Visualizer.UpdateGeometry_loop_length]
    simp

/-- C8 (amended): on an initialized visualizer `AddGeometry` returns false and leaves the
visualizer as it was when the kind is `Unspecified`; for the kinds `PointCloud`,
`TriangleMesh` and `Image` it makes the renderer of the matching class, that renderer's
`AddGeometry` succeeds, the renderer and the geometry are inserted into the tracked sets and
the result of a full `UpdateGeometry()` pass is returned; for any remaining kind it
returns false and leaves the visualizer as it was. -/
theorem Visualizer.AddGeometry_by_kind (v : Visualizer) (g : Geometry)
    (reset_bounding_box : Bool) (hinit : v.is_initialized_ = true) :
    (g.GetGeometryType = GeometryType.Unspecified →
      v.AddGeometry g reset_bounding_box = (false, v)) ∧
    (g.GetGeometryType = GeometryType.PointCloud →
      v.AddGeometry_tracks g reset_bounding_box RendererClass.PointCloudRenderer) ∧
    (g.GetGeometryType = GeometryType.TriangleMesh →
      v.AddGeometry_tracks g reset_bounding_box RendererClass.TriangleMeshRenderer) ∧
    (g.GetGeometryType = GeometryType.Image →
      v.AddGeometry_tracks g reset_bounding_box RendererClass.ImageRenderer) ∧
    (g.GetGeometryType = GeometryType.CoordinateFrameMesh →
      v.AddGeometry g reset_bounding_box = (false, v)) := by
  refine ⟨?_, ?_, ?_, ?_, ?_⟩
  · intro hk
    simp [Visualizer.AddGeometry, hk]
  · intro hk
    exact Visualizer.AddGeometry_tracks_cls v g reset_bounding_box _ hinit (by decide) hk
  · intro hk
    exact Visualizer.AddGeometry_tracks_cls v g reset_bounding_box _ hinit (by decide) hk
  · intro hk
    exact Visualizer.AddGeometry_tracks_cls v g reset_bounding_box _ hinit (by decide) hk
  · intro hk
    simp [Visualizer.AddGeometry, hk]

/-- Witness for C8: a mesh is added to a visualizer that tracks a point cloud. -/
theorem Visualizer.AddGeometry_by_kind_witness :
    sample_visualizer_tracking.is_initialized_ = true ∧
    sample_mesh.GetGeometryType = GeometryType.TriangleMesh ∧
    sample_visualizer_tracking.AddGeometry_tracks sample_mesh true
      RendererClass.TriangleMeshRenderer :=
  ⟨rfl, rfl,
    (Visualizer.AddGeometry_by_kind sample_visualizer_tracking sample_mesh true rfl).2.2.1
      rfl⟩

/-- Counterexample for C8 as stated: `sample_other_kind` has a kind other than
`Unspecified`, yet no renderer class expects that kind or accepts the geometry, and
`AddGeometry` on an initialized visualizer returns false and tracks nothing. -/
theorem Visualizer.AddGeometry_by_kind_counterexample :
    sample_visualizer.is_initialized_ = true ∧
    sample_other_kind.GetGeometryType ≠ GeometryType.Unspecified ∧
    (∀ cls : RendererClass, cls.expected_kind ≠ sample_other_kind.GetGeometryType ∧
      ((sample_visualizer.make_shared cls).AddGeometry sample_other_kind).1 = false) ∧
    sample_visualizer.AddGeometry sample_other_kind true = (false, sample_visualizer) ∧
    (sample_visualizer.AddGeometry sample_other_kind true).2.geometry_renderer_ptrs_ = [] ∧
    (sample_visualizer.AddGeometry sample_other_kind true).2.geometry_ptrs_ = [] := by
  refine ⟨rfl, by decide, ?_, by decide, by decide, by decide⟩
  intro cls
  cases cls <;> decide

/-- The operations that test `is_initialized_` do nothing on a visualizer that is not
initialized: each returns false and leaves the visualizer as it was. -/
theorem Visualizer.uninitialized_guarded (v : Visualizer) (g : Geometry)
    (reset_bounding_box close_requested : Bool) (h : v.is_initialized_ = false) :
    v.AddGeometry g reset_bounding_box = (false, v) ∧
    v.RemoveGeometry g reset_bounding_box = (false, v) ∧
    v.ClearGeometries = (false, v) ∧
    v.PollEvents close_requested = (false, v) ∧
    v.WaitEvents close_requested = (false, v) := by
  simp [Visualizer.AddGeometry, Visualizer.RemoveGeometry, Visualizer.ClearGeometries,
    Visualizer.PollEvents, Visualizer.WaitEvents, h]

/-- `UpdateGeometry` does not test `is_initialized_`: on every visualizer, initialized or
not, it returns true (each renderer's `UpdateGeometry` does) and leaves the frame dirty. -/
theorem Visualizer.UpdateGeometry_unguarded (v : Visualizer) (geometry_ptr : Option Geometry) :
    (v.UpdateGeometry geometry_ptr).1 = true ∧
    (v.UpdateGeometry geometry_ptr).2.is_redraw_required_ = true :=
  ⟨(Visualizer.UpdateGeometry_fields v geometry_ptr).1,
    (Visualizer.UpdateGeometry_fields v geometry_ptr).2.2.1⟩

/-- C10 (amended): in the `Run` loop of an initialized visualizer, once the window's close
flag is set, the next evaluation of the loop condition, be it `PollEvents` or `WaitEvents`,
returns false, so the loop ends there and its body does not run again; that evaluation
itself performs one redraw pass when the redraw-dirty flag is set at that moment, and none
when it is clear. -/
theorem Visualizer.Run_loop_after_Close (v : Visualizer) (hinit : v.is_initialized_ = true)
    (hclose : v.window_should_close = true) :
    (∀ close_requested : Bool,
      (v.PollEvents close_requested).1 = false ∧
      (v.PollEvents close_requested).2.redraw_passes =
        v.redraw_passes + (if v.is_redraw_required_ = true then 1 else 0) ∧
      (v.WaitEvents close_requested).1 = false ∧
      (v.WaitEvents close_requested).2.redraw_passes =
        v.redraw_passes + (if v.is_redraw_required_ = true then 1 else 0)) ∧
    (∀ (callbacks : Nat → Visualizer → Bool × Visualizer) (fuel : Nat) (events : List Bool),
      Visualizer.Run_loop callbacks (fuel + 1) events v =
        some (v.Run_condition (events.headD false)).2 ∧
      (v.Run_condition (events.headD false)).2.redraw_passes =
        v.redraw_passes + (if v.is_redraw_required_ = true then 1 else 0)) := by
  have hcond : ∀ close_requested : Bool,
      (v.PollEvents close_requested).1 = false ∧
      (v.PollEvents close_requested).2.redraw_passes =
        v.redraw_passes + (if v.is_redraw_required_ = true then 1 else 0) ∧
      (v.WaitEvents close_requested).1 = false ∧
      (v.WaitEvents close_requested).2.redraw_passes =
        v.redraw_passes + (if v.is_redraw_required_ = true then 1 else 0) := by
    intro close_requested
    cases hd : v.is_redraw_required_ <;>
      simp [Visualizer.PollEvents, Visualizer.WaitEvents, Visualizer.WindowRefreshCallback,
        Visualizer.glfwProcessEvents, hinit, hclose, hd]
  refine ⟨hcond, ?_⟩
  intro callbacks fuel events
  have hc := hcond (events.head?.getD false)
  cases ha : v.animation_callback_func_ <;>
    simp [Visualizer.Run_loop, Visualizer.Run_condition, ha, hc.1, hc.2.1, hc.2.2.1,
      hc.2.2.2]

/-- Witness for C10: `Close()` on an animated visualizer with a dirty frame. -/
theorem Visualizer.Run_loop_after_Close_witness :
    sample_visualizer_animated.Close.is_initialized_ = true ∧
    sample_visualizer_animated.Close.window_should_close = true ∧
    ((∀ close_requested : Bool,
      (sample_visualizer_animated.Close.PollEvents close_requested).1 = false ∧
      (sample_visualizer_animated.Close.PollEvents close_requested).2.redraw_passes =
        sample_visualizer_animated.Close.redraw_passes +
          (if sample_visualizer_animated.Close.is_redraw_required_ = true then 1 else 0) ∧
      (sample_visualizer_animated.Close.WaitEvents close_requested).1 = false ∧
      (sample_visualizer_animated.Close.WaitEvents close_requested).2.redraw_passes =
        sample_visualizer_animated.Close.redraw_passes +
          (if sample_visualizer_animated.Close.is_redraw_required_ = true then 1 else 0)) ∧
    (∀ (callbacks : Nat → Visualizer → Bool × Visualizer) (fuel : Nat) (events : List Bool),
      Visualizer.Run_loop callbacks (fuel + 1) events sample_visualizer_animated.Close =
        some (sample_visualizer_animated.Close.Run_condition (events.headD false)).2 ∧
      (sample_visualizer_animated.Close.Run_condition (events.headD false)).2.redraw_passes =
        sample_visualizer_animated.Close.redraw_passes +
          (if sample_visualizer_animated.Close.is_redraw_required_ = true then 1 else 0))) :=
  ⟨rfl, rfl, Visualizer.Run_loop_after_Close sample_visualizer_animated.Close rfl rfl⟩

/-- Counterexample for C10 as stated: the visualizer is initialized, an animation callback
is registered and the frame is dirty when `Close()` sets the close flag.  The next
evaluation of the loop condition (`PollEvents`) ends the loop, but it has performed a
redraw pass first; so has `WaitEvents`, and so has the loop as a whole. -/
theorem Visualizer.Run_loop_after_Close_counterexample :
    sample_visualizer_animated.is_initialized_ = true ∧
    sample_visualizer_animated.Close.window_should_close = true ∧
    sample_visualizer_animated.Close.is_redraw_required_ = true ∧
    sample_visualizer_animated.Close.redraw_passes = 0 ∧
    (sample_visualizer_animated.Close.Run_condition false).1 = false ∧
    (sample_visualizer_animated.Close.Run_condition false).2.redraw_passes = 1 ∧
    (sample_visualizer_animated.Close.PollEvents false).2.redraw_passes = 1 ∧
    (sample_visualizer_animated.Close.WaitEvents false).2.redraw_passes = 1 ∧
    (Visualizer.Run_loop sample_callbacks 1 [] sample_visualizer_animated.Close).map
      Visualizer.redraw_passes = some 1 := by
  decide

/-! ## Update passes and loop iterations: theorems -/

theorem GeometryRenderer.UpdateGeometry_logged (r : GeometryRenderer) :
    r.invalidated.length < r.UpdateGeometry.2.invalidated.length := by
  cases hc : r.cls <;>
    simp [GeometryRenderer.UpdateGeometry, PointCloudRenderer.UpdateGeometry,
      TriangleMeshRenderer.UpdateGeometry, ImageRenderer.UpdateGeometry,
      CoordinateFrameRenderer.UpdateGeometry, GeometryRenderer.InvalidateGeometry, hc]

/-- As every renderer's `UpdateGeometry` returns true, `success` stays true through the
loop, so the right operand of `&&` is evaluated for every selected renderer. -/
theorem Visualizer.UpdateGeometry_loop_map (geometry_ptr : Option Geometry)
    (rs : List GeometryRenderer) :
    Visualizer.UpdateGeometry_loop geometry_ptr true rs =
      (true, rs.map (fun r =>
        if spec_update_selects geometry_ptr r = true then r.UpdateGeometry.2 else r)) := by
  induction rs with
  | nil => simp [Visualizer.UpdateGeometry_loop]
  | cons y rest ih =>
    have hy := (GeometryRenderer.UpdateGeometry_keeps y).1
    cases geometry_ptr with
    | none => simp [Visualizer.UpdateGeometry_loop, spec_update_selects, hy, ih]
    | some g =>
      cases hs : y.HasGeometry g <;>
        simp [Visualizer.UpdateGeometry_loop, spec_update_selects, hy, ih, hs]

/-- C11: `Visualizer::UpdateGeometry(g)` calls `UpdateGeometry()` on every tracked renderer
when `g` is none and otherwise on exactly the tracked renderers referencing `g` (a called
renderer carries the new invalidations, every other renderer is left as it was);
afterwards the redraw-dirty flag is true; and the returned value is the conjunction of the
results of the renderers called. -/
theorem Visualizer.UpdateGeometry_calls_selected (v : Visualizer)
    (geometry_ptr : Option Geometry) :
    (v.UpdateGeometry geometry_ptr).2.geometry_renderer_ptrs_ =
      v.geometry_renderer_ptrs_.map (fun r =>
        if spec_update_selects geometry_ptr r = true then r.UpdateGeometry.2 else r) ∧
    (∀ r : GeometryRenderer, r.UpdateGeometry.2 ≠ r) ∧
    (v.UpdateGeometry geometry_ptr).2.is_redraw_required_ = true ∧
    (v.UpdateGeometry geometry_ptr).1 =
      (v.geometry_renderer_ptrs_.filter (spec_update_selects geometry_ptr)).all
        (fun r => r.UpdateGeometry.1) := by
  refine ⟨?_, ?_, ?_, ?_⟩
  · simp [Visualizer.UpdateGeometry, Visualizer.UpdateRender,
      Visualizer.UpdateGeometry_loop_map]
  · intro r h
    have hlog := GeometryRenderer.UpdateGeometry_logged r
    rw [h] at hlog
    exact absurd hlog (lt_irrefl _)
  · exact (Visualizer.UpdateGeometry_fields v geometry_ptr).2.2.1
  · rw [(Visualizer.UpdateGeometry_fields v geometry_ptr).1]
    symm
    rw [List.all_eq_true]
    intro r _
    exact (GeometryRenderer.UpdateGeometry_keeps r).1

theorem set_erase_eq_filter {α : Type} (address : α → Nat) (key : Nat) (s : List α)
    (h : (s.map address).Nodup) :
    set_erase address key s = s.filter (fun y => address y != key) := by
  induction s with
  | nil => rfl
  | cons y rest ih =>
    rw [List.map_cons, List.nodup_cons] at h
    by_cases hy : address y = key
    · have hrest : ∀ z ∈ rest, address z ≠ key := by
        intro z hz hk
        exact h.1 (List.mem_map.mpr ⟨z, hz, by rw [hk, hy]⟩)
      have hfil : rest.filter (fun y => address y != key) = rest :=
        List.filter_eq_self.mpr (by intro z hz; simpa using hrest z hz)
      simp [set_erase, hy, hfil]
    · simp [set_erase, hy, ih h.2]

theorem set_erase_map {α β : Type} (f : α → β) (address : α → Nat) (address2 : β → Nat)
    (hf : ∀ y, address2 (f y) = address y) (key : Nat) (s : List α) :
    (set_erase address key s).map f = set_erase address2 key (s.map f) := by
  induction s with
  | nil => rfl
  | cons y rest ih =>
    by_cases hy : address y = key
    · simp [set_erase, hy, hf]
    · simp [set_erase, hy, hf, ih]

theorem set_insert_map {α β : Type} (f : α → β) (address : α → Nat) (address2 : β → Nat)
    (hf : ∀ y, address2 (f y) = address y) (x : α) (s : List α) :
    (set_insert address x s).map f = set_insert address2 (f x) (s.map f) := by
  by_cases h : s.any (fun y => address y == address x) = true
  · have h2 : (s.map f).any (fun y => address2 y == address2 (f x)) = true := by
      simpa [List.any_map, Function.comp_def, hf] using h
    simp [set_insert, h, h2]
  · have h2 : ¬ (s.map f).any (fun y => address2 y == address2 (f x)) = true := by
      simpa [List.any_map, Function.comp_def, hf] using h
    simp only [set_insert, h, h2, if_false, List.map_append, List.map_cons, List.map_nil,
      Bool.false_eq_true]

theorem tracked_ok_add (rk : List (Nat × Option Nat)) (gk : List Nat) (p q : Nat)
    (h : tracked_ok rk gk) (hp : p ∉ rk.map Prod.fst) :
    tracked_ok (rk ++ [(p, some q)]) (set_insert id q gk) := by
  obtain ⟨hr, hg, ha⟩ := h
  have hrk : ((rk ++ [(p, some q)]).map Prod.fst).Nodup := by
    rw [List.map_append, List.nodup_append]
    refine ⟨hr, by simp, ?_⟩
    intro a ha1 ha2
    simp at ha2
    exact hp (ha2 ▸ ha1)
  by_cases hq : q ∈ gk
  · rw [set_insert_present id q gk ⟨q, hq, rfl⟩]
    refine ⟨hrk, hg, ?_⟩
    intro x hx
    rcases ha x hx with ⟨k, hk, hkx⟩
    exact ⟨k, List.mem_append_left _ hk, hkx⟩
  · rw [set_insert_absent id q gk (fun y hy hyq => hq ((show y = q from hyq) ▸ hy))]
    refine ⟨hrk, ?_, ?_⟩
    · rw [List.nodup_append]
      refine ⟨hg, by simp, ?_⟩
      intro a ha1 ha2
      simp at ha2
      exact hq (ha2 ▸ ha1)
    · intro x hx
      rcases List.mem_append.mp hx with hx | hx
      · rcases ha x hx with ⟨k, hk, hkx⟩
        exact ⟨k, List.mem_append_left _ hk, hkx⟩
      · simp at hx
        exact ⟨(p, some q), by simp, by simp [hx]⟩

theorem tracked_ok_remove (rk : List (Nat × Option Nat)) (gk : List Nat)
    (k : Nat × Option Nat) (q : Nat) (h : tracked_ok rk gk) (hk : k ∈ rk)
    (hq : k.2 = some q) :
    tracked_ok (set_erase Prod.fst k.1 rk) (set_erase id q gk) := by
  obtain ⟨hr, hg, ha⟩ := h
  rw [set_erase_eq_filter Prod.fst k.1 rk hr,
    set_erase_eq_filter id q gk (by simpa using hg)]
  refine ⟨?_, ?_, ?_⟩
  · exact List.Nodup.sublist (List.Sublist.map _ (List.filter_sublist _)) hr
  · exact List.Nodup.sublist (List.filter_sublist _) hg
  · intro x hx
    rw [List.mem_filter] at hx
    have hxq : x ≠ q := by simpa using hx.2
    rcases ha x hx.1 with ⟨k2, hk2, hk2x⟩
    refine ⟨k2, ?_, hk2x⟩
    rw [List.mem_filter]
    refine ⟨hk2, ?_⟩
    have hne : k2.1 ≠ k.1 := by
      intro heq
      have := List.inj_on_of_nodup_map hr hk2 hk heq
      rw [this, hq] at hk2x
      exact hxq (Option.some.inj hk2x).symm
    simpa using hne

theorem tracked_exact_add (rk : List (Nat × Option Nat)) (gk : List Nat) (p q : Nat)
    (h : tracked_exact rk gk) (hp : p ∉ rk.map Prod.fst) (hq : q ∉ gk) :
    tracked_exact (rk ++ [(p, some q)]) (set_insert id q gk) := by
  obtain ⟨hok, hb, hu⟩ := h
  refine ⟨tracked_ok_add rk gk p q hok hp, ?_, ?_⟩
  · rw [set_insert_absent id q gk (fun y hy hyq => hq ((show y = q from hyq) ▸ hy))]
    intro k hk
    rcases List.mem_append.mp hk with hk | hk
    · rcases hb k hk with ⟨x, hx, hkx⟩
      exact ⟨x, List.mem_append_left _ hx, hkx⟩
    · simp at hk
      exact ⟨q, by simp, by simp [hk]⟩
  · rw [List.map_append, List.nodup_append]
    refine ⟨hu, by simp, ?_⟩
    intro a ha1 ha2
    simp at ha2
    rcases List.mem_map.mp ha1 with ⟨k, hk, hka⟩
    rcases hb k hk with ⟨x, hx, hkx⟩
    rw [hka, ha2] at hkx
    exact hq ((Option.some.inj hkx) ▸ hx)

theorem tracked_exact_remove (rk : List (Nat × Option Nat)) (gk : List Nat)
    (k : Nat × Option Nat) (q : Nat) (h : tracked_exact rk gk) (hk : k ∈ rk)
    (hq : k.2 = some q) :
    tracked_exact (set_erase Prod.fst k.1 rk) (set_erase id q gk) := by
  obtain ⟨hok, hb, hu⟩ := h
  refine ⟨tracked_ok_remove rk gk k q hok hk hq, ?_, ?_⟩
  · obtain ⟨hr, hg, -⟩ := hok
    rw [set_erase_eq_filter Prod.fst k.1 rk hr,
      set_erase_eq_filter id q gk (by simpa using hg)]
    intro k2 hk2
    rw [List.mem_filter] at hk2
    have hne : k2.1 ≠ k.1 := by simpa using hk2.2
    rcases hb k2 hk2.1 with ⟨x, hx, hk2x⟩
    refine ⟨x, ?_, hk2x⟩
    rw [List.mem_filter]
    refine ⟨hx, ?_⟩
    have hxq : x ≠ q := by
      intro heq
      have hsnd : k2.2 = k.2 := by rw [hk2x, hq, heq]
      have := List.inj_on_of_nodup_map hu hk2.1 hk hsnd
      exact hne (by rw [this])
    simpa using hxq
  · rw [set_erase_eq_filter Prod.fst k.1 rk hok.1]
    exact List.Nodup.sublist (List.Sublist.map _ (List.filter_sublist _)) hu

theorem GeometryRenderer.geometry_is_iff (r : GeometryRenderer) (x : Geometry) :
    r.geometry_is x = true ↔ r.geometry_ptr_.map Geometry.ptr = some x.ptr := by
  cases hg : r.geometry_ptr_ <;> simp [GeometryRenderer.geometry_is, hg]

theorem Visualizer.UpdateGeometry_keys (v : Visualizer) (geometry_ptr : Option Geometry) :
    (v.UpdateGeometry geometry_ptr).2.renderer_keys = v.renderer_keys ∧
    (v.UpdateGeometry geometry_ptr).2.geometry_keys = v.geometry_keys := by
  obtain ⟨-, -, -, hg, hr⟩ := Visualizer.UpdateGeometry_fields v geometry_ptr
  have hkeep := congrArg (List.map (fun t : Nat × RendererClass × Option Geometry =>
      (t.1, t.2.2.map Geometry.ptr)))
    (Visualizer.UpdateGeometry_loop_keeps geometry_ptr v.geometry_renderer_ptrs_ true)
  simp only [List.map_map, Function.comp_def] at hkeep
  exact ⟨by simp only [Visualizer.renderer_keys, hr]; exact hkeep,
    by simp only [Visualizer.geometry_keys, hg]⟩

theorem Visualizer.AddGeometry_keys_cls (v : Visualizer) (g : Geometry)
    (reset_bounding_box : Bool) (cls : RendererClass) (hinit : v.is_initialized_ = true)
    (hcls : cls ≠ RendererClass.CoordinateFrameRenderer)
    (hk : g.GetGeometryType = cls.expected_kind) :
    ∃ p, p ∉ v.renderer_keys.map Prod.fst ∧
      (v.AddGeometry g reset_bounding_box).2.renderer_keys =
        v.renderer_keys ++ [(p, some g.ptr)] ∧
      (v.AddGeometry g reset_bounding_box).2.geometry_keys =
        set_insert id g.ptr v.geometry_keys := by
  have hadd := Visualizer.AddGeometry_accepted v g reset_bounding_box cls hinit hcls hk
  have hacc := GeometryRenderer.AddGeometry_expected_kind (v.make_shared cls) g
    (by simpa [Visualizer.make_shared] using hk)
  have hptr := (GeometryRenderer.AddGeometry_keeps_ptr (v.make_shared cls) g).1
  generalize ((v.make_shared cls).AddGeometry g).2 = renderer_ptr at hadd hacc hptr
  have hfresh : ∀ r ∈ v.geometry_renderer_ptrs_, r.ptr ≠ renderer_ptr.ptr := by
    rw [hptr]
    exact Visualizer.make_shared_fresh v cls
  have hins : set_insert GeometryRenderer.ptr renderer_ptr v.geometry_renderer_ptrs_ =
      v.geometry_renderer_ptrs_ ++ [renderer_ptr] := set_insert_absent _ _ _ hfresh
  obtain ⟨hr, hg⟩ := Visualizer.UpdateGeometry_keys (v.insert_tracked renderer_ptr g) none
  rw [← hadd] at hr hg
  refine ⟨renderer_ptr.ptr, ?_, ?_, ?_⟩
  · intro hmem
    simp only [Visualizer.renderer_keys, List.map_map, List.mem_map, Function.comp_def] at hmem
    rcases hmem with ⟨r, hr1, hr2⟩
    exact hfresh r hr1 hr2
  · rw [hr]
    simp [Visualizer.renderer_keys, Visualizer.insert_tracked, hins, hacc.2]
  · rw [hg]
    simp only [Visualizer.geometry_keys, Visualizer.insert_tracked]
    exact set_insert_map Geometry.ptr Geometry.ptr id (fun _ => rfl) g v.geometry_ptrs_

theorem Visualizer.AddGeometry_keys (v : Visualizer) (g : Geometry)
    (reset_bounding_box : Bool) :
    (v.AddGeometry g reset_bounding_box).2 = v ∨
    ∃ p, p ∉ v.renderer_keys.map Prod.fst ∧
      (v.AddGeometry g reset_bounding_box).2.renderer_keys =
        v.renderer_keys ++ [(p, some g.ptr)] ∧
      (v.AddGeometry g reset_bounding_box).2.geometry_keys =
        set_insert id g.ptr v.geometry_keys := by
  cases hinit : v.is_initialized_
  · left
    simp [Visualizer.AddGeometry, hinit]
  · cases hk : g.GetGeometryType
    · left
      simp [Visualizer.AddGeometry, hk]
    · right
      exact Visualizer.AddGeometry_keys_cls v g reset_bounding_box
        RendererClass.PointCloudRenderer hinit (by decide) hk
    · right
      exact Visualizer.AddGeometry_keys_cls v g reset_bounding_box
        RendererClass.TriangleMeshRenderer hinit (by decide) hk
    · right
      exact Visualizer.AddGeometry_keys_cls v g reset_bounding_box
        RendererClass.ImageRenderer hinit (by decide) hk
    · left
      simp [Visualizer.AddGeometry, hk]

theorem Visualizer.RemoveGeometry_keys (v : Visualizer) (g : Geometry)
    (reset_bounding_box : Bool) :
    (v.RemoveGeometry g reset_bounding_box).2 = v ∨
    ∃ k ∈ v.renderer_keys, k.2 = some g.ptr ∧
      (v.RemoveGeometry g reset_bounding_box).2.renderer_keys =
        set_erase Prod.fst k.1 v.renderer_keys ∧
      (v.RemoveGeometry g reset_bounding_box).2.geometry_keys =
        set_erase id g.ptr v.geometry_keys := by
  cases hinit : v.is_initialized_
  · left
    simp [Visualizer.RemoveGeometry, hinit]
  · by_cases h : ∃ r ∈ v.geometry_renderer_ptrs_, r.geometry_is g = true
    · right
      rcases Visualizer.RemoveGeometry_present v g reset_bounding_box hinit h with
        ⟨d, hd, hdg, hrem⟩
      obtain ⟨hr, hg⟩ := Visualizer.UpdateGeometry_keys
        ({ v with
            geometry_renderer_ptrs_ :=
              set_erase GeometryRenderer.ptr d.ptr v.geometry_renderer_ptrs_
            geometry_ptrs_ := set_erase Geometry.ptr g.ptr v.geometry_ptrs_ } :
          Visualizer) none
      rw [← hrem] at hr hg
      refine ⟨(d.ptr, d.geometry_ptr_.map Geometry.ptr), ?_, ?_, ?_, ?_⟩
      · exact List.mem_map.mpr ⟨d, hd, rfl⟩
      · exact (GeometryRenderer.geometry_is_iff d g).mp hdg
      · rw [hr]
        simp only [Visualizer.renderer_keys]
        exact set_erase_map _ GeometryRenderer.ptr Prod.fst (fun _ => rfl) d.ptr
          v.geometry_renderer_ptrs_
      · rw [hg]
        simp only [Visualizer.geometry_keys]
        exact set_erase_map Geometry.ptr Geometry.ptr id (fun _ => rfl) g.ptr
          v.geometry_ptrs_
    · left
      have habs : ∀ r ∈ v.geometry_renderer_ptrs_, r.geometry_is g = false := by
        intro r hr
        cases hg : r.geometry_is g
        · rfl
        · exact absurd ⟨r, hr, hg⟩ h
      simp [Visualizer.RemoveGeometry, hinit,
        Visualizer.RemoveGeometry_find_absent g v.geometry_renderer_ptrs_ habs none]

theorem Visualizer.ClearGeometries_keys (v : Visualizer) :
    v.ClearGeometries.2 = v ∨
    (v.ClearGeometries.2.renderer_keys = [] ∧ v.ClearGeometries.2.geometry_keys = []) := by
  cases hinit : v.is_initialized_
  · left
    simp [Visualizer.ClearGeometries, hinit]
  · right
    obtain ⟨hr, hg⟩ := Visualizer.UpdateGeometry_keys
      ({ v with geometry_renderer_ptrs_ := [], geometry_ptrs_ := [] } : Visualizer) none
    have hc : v.ClearGeometries =
        ({ v with geometry_renderer_ptrs_ := [], geometry_ptrs_ := [] } :
          Visualizer).UpdateGeometry none := by
      simp [Visualizer.ClearGeometries, hinit]
    rw [← hc] at hr hg
    exact ⟨by rw [hr]; rfl, by rw [hg]; rfl⟩

theorem tracked_ok_nil : tracked_ok [] [] := by
  simp [tracked_ok]

theorem tracked_exact_nil : tracked_exact [] [] := by
  simp [tracked_exact, tracked_ok]

theorem Visualizer.call_tracked_ok (v : Visualizer) (c : TrackedCall)
    (h : tracked_ok v.renderer_keys v.geometry_keys) :
    tracked_ok (v.call c).renderer_keys (v.call c).geometry_keys := by
  cases c with
  | AddGeometry g reset_bounding_box =>
    rcases Visualizer.AddGeometry_keys v g reset_bounding_box with hsame | ⟨p, hp, hr, hg⟩
    · simp only [Visualizer.call, hsame]
      exact h
    · simp only [Visualizer.call, hr, hg]
      exact tracked_ok_add _ _ p g.ptr h hp
  | RemoveGeometry g reset_bounding_box =>
    rcases Visualizer.RemoveGeometry_keys v g reset_bounding_box with
      hsame | ⟨k, hk, hkg, hr, hg⟩
    · simp only [Visualizer.call, hsame]
      exact h
    · simp only [Visualizer.call, hr, hg]
      exact tracked_ok_remove _ _ k g.ptr h hk hkg
  | ClearGeometries =>
    rcases Visualizer.ClearGeometries_keys v with hsame | ⟨hr, hg⟩
    · simp only [Visualizer.call, hsame]
      exact h
    · simp only [Visualizer.call, hr, hg]
      exact tracked_ok_nil

theorem Visualizer.call_tracked_exact (v : Visualizer) (c : TrackedCall)
    (h : tracked_exact v.renderer_keys v.geometry_keys)
    (hadd : v.adds_untracked [c] = true) :
    tracked_exact (v.call c).renderer_keys (v.call c).geometry_keys := by
  cases c with
  | AddGeometry g reset_bounding_box =>
    rcases Visualizer.AddGeometry_keys v g reset_bounding_box with hsame | ⟨p, hp, hr, hg⟩
    · simp only [Visualizer.call, hsame]
      exact h
    · simp only [Visualizer.call, hr, hg]
      refine tracked_exact_add _ _ p g.ptr h hp ?_
      simp [Visualizer.adds_untracked] at hadd
      simpa [Visualizer.geometry_keys] using hadd
  | RemoveGeometry g reset_bounding_box =>
    rcases Visualizer.RemoveGeometry_keys v g reset_bounding_box with
      hsame | ⟨k, hk, hkg, hr, hg⟩
    · simp only [Visualizer.call, hsame]
      exact h
    · simp only [Visualizer.call, hr, hg]
      exact tracked_exact_remove _ _ k g.ptr h hk hkg
  | ClearGeometries =>
    rcases Visualizer.ClearGeometries_keys v with hsame | ⟨hr, hg⟩
    · simp only [Visualizer.call, hsame]
      exact h
    · simp only [Visualizer.call, hr, hg]
      exact tracked_exact_nil

theorem Visualizer.calls_tracked_ok (cs : List TrackedCall) :
    ∀ v : Visualizer, tracked_ok v.renderer_keys v.geometry_keys →
      tracked_ok (v.calls cs).renderer_keys (v.calls cs).geometry_keys := by
  induction cs with
  | nil => intro v h; exact h
  | cons c rest ih =>
    intro v h
    exact ih (v.call c) (Visualizer.call_tracked_ok v c h)

theorem Visualizer.calls_tracked_exact (cs : List TrackedCall) :
    ∀ v : Visualizer, tracked_exact v.renderer_keys v.geometry_keys →
      v.adds_untracked cs = true →
      tracked_exact (v.calls cs).renderer_keys (v.calls cs).geometry_keys := by
  induction cs with
  | nil => intro v h _; exact h
  | cons c rest ih =>
    intro v h hadd
    simp only [Visualizer.adds_untracked, Bool.and_eq_true] at hadd
    refine ih (v.call c) (Visualizer.call_tracked_exact v c h ?_) hadd.2
    simp only [Visualizer.adds_untracked, Bool.and_eq_true]
    exact ⟨hadd.1, trivial⟩

/-! ## The tracked sets along call sequences: theorems -/

/-- C13 (amended): in every state reached from a visualizer that tracks nothing by any
sequence of `AddGeometry`, `RemoveGeometry` and `ClearGeometries` calls, every tracked
geometry has a tracked renderer referencing it; and when no `AddGeometry` call of the
sequence is given a geometry that is in the tracked geometry set at the time of the call,
every tracked renderer's geometry is in the tracked geometry set as well, so that the
geometry set is exactly the set of geometries the tracked renderers reference. -/
theorem Visualizer.tracked_sets_along_calls (v : Visualizer) (cs : List TrackedCall)
    (hr : v.geometry_renderer_ptrs_ = []) (hg : v.geometry_ptrs_ = []) :
    (v.calls cs).geometries_have_renderers ∧
    (v.adds_untracked cs = true → (v.calls cs).renderers_have_geometries) := by
  have hrk : v.renderer_keys = [] := by simp [Visualizer.renderer_keys, hr]
  have hgk : v.geometry_keys = [] := by simp [Visualizer.geometry_keys, hg]
  constructor
  · have hok := Visualizer.calls_tracked_ok cs v (by rw [hrk, hgk]; exact tracked_ok_nil)
    intro x hx
    rcases hok.2.2 x.ptr (List.mem_map.mpr ⟨x, hx, rfl⟩) with ⟨k, hk, hkx⟩
    rcases List.mem_map.mp hk with ⟨r, hr1, hr2⟩
    refine ⟨r, hr1, (GeometryRenderer.geometry_is_iff r x).mpr ?_⟩
    rw [← hr2] at hkx
    exact hkx
  · intro hadd
    have hex := Visualizer.calls_tracked_exact cs v
      (by rw [hrk, hgk]; exact tracked_exact_nil) hadd
    intro r hr1
    rcases hex.2.1 _ (List.mem_map.mpr ⟨r, hr1, rfl⟩) with ⟨p, hp, hrp⟩
    rcases List.mem_map.mp hp with ⟨x, hx, hxp⟩
    refine ⟨x, hx, (GeometryRenderer.geometry_is_iff r x).mpr ?_⟩
    rw [hxp]
    exact hrp

/-- Witness for C13: a point cloud and a mesh are added to an initialized visualizer that
tracks nothing, and the point cloud is removed. -/
theorem Visualizer.tracked_sets_along_calls_witness :
    sample_visualizer.is_initialized_ = true ∧
    sample_visualizer.geometry_renderer_ptrs_ = [] ∧
    sample_visualizer.geometry_ptrs_ = [] ∧
    sample_visualizer.adds_untracked sample_calls = true ∧
    (sample_visualizer.calls sample_calls).geometry_ptrs_ = [sample_mesh] ∧
    (sample_visualizer.calls sample_calls).geometries_have_renderers ∧
    (sample_visualizer.calls sample_calls).renderers_have_geometries :=
  ⟨rfl, rfl, rfl, by decide, by decide,
    (Visualizer.tracked_sets_along_calls sample_visualizer sample_calls rfl rfl).1,
    (Visualizer.tracked_sets_along_calls sample_visualizer sample_calls rfl rfl).2
      (by decide)⟩

/-- Counterexample for C13 as stated: starting from an initialized visualizer that tracks
nothing, the same point cloud is added twice and removed once, every call returning true.
One renderer referencing the point cloud is still tracked, but the tracked geometry set is
empty. -/
theorem Visualizer.tracked_sets_along_calls_counterexample :
    sample_visualizer.is_initialized_ = true ∧
    sample_visualizer.geometry_renderer_ptrs_ = [] ∧
    sample_visualizer.geometry_ptrs_ = [] ∧
    (sample_visualizer.AddGeometry sample_pointcloud true).1 = true ∧
    ((sample_visualizer.AddGeometry sample_pointcloud true).2.AddGeometry
      sample_pointcloud true).1 = true ∧
    (((sample_visualizer.AddGeometry sample_pointcloud true).2.AddGeometry
      sample_pointcloud true).2.RemoveGeometry sample_pointcloud true).1 = true ∧
    (sample_visualizer.calls sample_calls_twice).geometry_renderer_ptrs_.map
      (fun r => r.geometry_ptr_) = [some sample_pointcloud] ∧
    (sample_visualizer.calls sample_calls_twice).geometry_ptrs_ = [] ∧
    ¬ (sample_visualizer.calls sample_calls_twice).renderers_have_geometries := by
  have hg : (sample_visualizer.calls sample_calls_twice).geometry_ptrs_ = [] := by decide
  have hr : (sample_visualizer.calls sample_calls_twice).geometry_renderer_ptrs_.map
      (fun r => r.geometry_ptr_) = [some sample_pointcloud] := by decide
  refine ⟨rfl, rfl, rfl, by decide, by decide, by decide, hr, hg, ?_⟩
  intro h
  cases hl : (sample_visualizer.calls sample_calls_twice).geometry_renderer_ptrs_ with
  | nil => rw [hl] at hr; simp at hr
  | cons r rest =>
    rcases h r (by rw [hl]; exact List.mem_cons_self _ _) with ⟨x, hx, -⟩
    rw [hg] at hx
    simp at hx

end cupoch
